import Mathlib

/-!
Verification development for the mtx-maaster question-bank / mock-test
backend (FastAPI + Mongo).  We give a shallow embedding of the service
layer that the claims concern:

* `app/services/test_service.py`  — the test composition engine
* `app/services/question_service.py` — versioned question documents
* `app/services/master_service.py` — subjects / topics
* `app/db/questions_repo.py` — seeded sampling

Conventions of the embedding:

* `HTTPException(status_code, detail)` is modelled by `HErr`.  The spec's
  error taxonomy maps onto HTTP codes as the code uses them:
  `NotFoundError` is status 404, `ValidationError` / `ConflictError` are
  status 400, `AuthorizationError` is 403.
* Every service operation becomes a pure function
  `DBState → Except HErr α × DBState`.  The Mongo repository
  (`app/db/session.py`) materialises fresh pydantic objects from stored
  documents on every read, so in-memory mutation of a loaded aggregate is
  invisible until `db.update_test`/`insert_*` is called; the embedding
  mirrors this by threading the state explicitly and applying writes only
  where the source calls a db write.  An operation that raises before its
  write therefore returns the state unchanged — which is a theorem about
  the write placement, not a modelling artifact.
* Python floats (marks, random keys) are modelled as `Rat`: the verified
  operations only copy and compare them, never do float arithmetic, so
  the embedding is exact on every concretely representable input.
* `datetime.utcnow()` and `uuid.uuid4()` are injected as explicit
  arguments (`now : Int`, generated-id strings).
* Python truthiness tests on `Optional[str]` / `Optional[int]` values
  (`if seed:`, `x or y`) are modelled by explicit helpers `pyOrStr`,
  `pyOrInt`, `strTruthy`; `None` and `""`/`0` are falsy.
-/

namespace MtxMaster

/-- Embedding of `fastapi.HTTPException`: HTTP status code plus detail
message. -/
structure HErr where
  status : Nat
  detail : String
deriving DecidableEq, Repr

/-- `app/schemas/question.py` `QuestionType` (legacy question model, also
used as the marking-scheme key of a test section). -/
inductive QuestionType where
  | MCQ
  | MSQ
  | NAT
  | SUBJECTIVE
deriving DecidableEq, Repr

/-- `app/schemas/test.py` `TestStatus`. -/
inductive TestStatus where
  | draft
  | published
  | archived
deriving DecidableEq, Repr

/-- `app/schemas/test.py` `SectionMarkingScheme`.  The source field
`partial` is rendered `partialCredit` (reserved word). -/
structure SectionMarkingScheme where
  correct : Rat
  incorrect : Rat := 0
  unattempted : Rat := 0
  partialCredit : Option Rat := none
deriving DecidableEq, Repr

/-- `app/schemas/test.py` `TestSection`.  `marking_scheme` is the
`Dict[QuestionType, SectionMarkingScheme]`, modelled as an association
list (Python dicts have unique keys; lookups take the first match). -/
structure TestSection where
  section_id : String
  section_code : String
  name : String
  display_order : Int := 0
  subject_id : String
  total_questions : Int
  total_marks : Option Rat := none
  duration_minutes : Option Int := none
  can_switch_section : Bool := true
  is_optional : Bool := false
  marking_scheme : List (QuestionType × SectionMarkingScheme)
deriving DecidableEq, Repr

/-- `section.marking_scheme.get(question_type)` — dict lookup. -/
def TestSection.schemeFor (s : TestSection) (t : QuestionType) :
    Option SectionMarkingScheme :=
  (s.marking_scheme.find? (fun kv => kv.1 == t)).map (·.2)

/-- `app/schemas/test.py` `TestPattern`. -/
structure TestPattern where
  total_duration_minutes : Int := 0
  total_marks : Option Rat := none
  total_questions : Int
  sections : List TestSection
deriving DecidableEq, Repr

/-- `app/schemas/test.py` `QuestionReference`. -/
structure QuestionReference where
  seq : Int
  section_id : String
  question_id : String
  question_type : QuestionType
  subject_id : String
  topic_ids : List String := []
  difficulty : Int := 1
  marks : Option Rat := none
  negative_marks : Option Rat := none
  is_bonus : Bool := false
  is_optional : Bool := false
deriving DecidableEq, Repr

/-- `app/schemas/test.py` `TestResponse` (the persisted test aggregate).
`settings`, `solutions`, `availability` and `metadata` are carried by the
source model but are never read or validated by any operation the claims
concern, so they are omitted from the embedding. -/
structure Test where
  test_id : String
  code : String
  slug : String
  series_id : Option String := none
  test_number : Option Int := none
  name : String
  description : Option String := none
  pattern : TestPattern
  questions : List QuestionReference := []
  is_active : Bool := true
  status : TestStatus := .draft
  tags : List String := []
  version : Option String := none
  language : Option String := some "en"
  created_at : Int := 0
  updated_at : Int := 0
deriving DecidableEq, Repr

/-- `app/schemas/test.py` `TestCreate` (same base fields plus the initial
question list). -/
structure TestCreate where
  code : String
  slug : String
  series_id : Option String := none
  test_number : Option Int := none
  name : String
  description : Option String := none
  pattern : TestPattern
  questions : List QuestionReference := []
  is_active : Bool := true
  status : TestStatus := .draft
  tags : List String := []
  version : Option String := none
  language : Option String := some "en"
deriving DecidableEq, Repr

/-- `app/schemas/master.py` `SubjectResponse` (fields the verified
operations read). -/
structure Subject where
  id : String
  name : String := ""
  slug : String
  is_active : Bool := true
deriving DecidableEq, Repr

/-- `app/schemas/master.py` `TopicResponse` (fields the verified
operations read). -/
structure Topic where
  id : String
  subject_id : String
  name : String := ""
  slug : String
  related_topic_ids : List String := []
  prerequisite_topic_ids : List String := []
  is_active : Bool := true
  created_at : Int := 0
  updated_at : Int := 0
deriving DecidableEq, Repr

/-- `app/schemas/master.py` `TopicCreate`. -/
structure TopicCreate where
  id : Option String := none
  subject_id : String
  name : String := ""
  slug : String
  related_topic_ids : List String := []
  prerequisite_topic_ids : List String := []
  is_active : Bool := true
deriving DecidableEq, Repr

/-- `app/schemas/test_series.py` `TestSeriesResponse`, reduced to the key
the test operations read (`db.get_test_series` only checks existence). -/
structure TestSeries where
  series_id : String
deriving DecidableEq, Repr

/-- A document of the Mongo `questions` collection as seen through
`Database._question_from_doc` (the legacy `QuestionResponse` view), plus
the raw `schema_version` marker that `Database.find_questions` filters on
(`{"schema_version": {"$ne": 2}}`). -/
structure StoredQuestion where
  question_id : String
  question_type : QuestionType := .MCQ
  subject_id : String
  topic_ids : List String := []
  difficulty : Int := 1
  is_active : Bool := true
  schema_version : Option Int := none
deriving DecidableEq, Repr

/-- The Mongo database state visible to the verified services
(`app/db/session.py` `Database`). -/
structure DBState where
  subjects : List Subject := []
  topics : List Topic := []
  series : List TestSeries := []
  tests : List Test := []
  questions : List StoredQuestion := []
deriving DecidableEq, Repr

/-! ### Database accessors (`app/db/session.py`) -/

/-- `Database.get_subject`. -/
def DBState.getSubject (db : DBState) (id : String) : Option Subject :=
  db.subjects.find? (fun s => s.id == id)

/-- `Database.get_topic`. -/
def DBState.getTopic (db : DBState) (id : String) : Option Topic :=
  db.topics.find? (fun t => t.id == id)

/-- `Database.get_topic_by_slug`. -/
def DBState.getTopicBySlug (db : DBState) (subject_id slug : String) :
    Option Topic :=
  db.topics.find? (fun t => t.subject_id == subject_id && t.slug == slug)

/-- `Database.get_test_series`. -/
def DBState.getSeries (db : DBState) (id : String) : Option TestSeries :=
  db.series.find? (fun s => s.series_id == id)

/-- `Database.get_test`. -/
def DBState.getTest (db : DBState) (id : String) : Option Test :=
  db.tests.find? (fun t => t.test_id == id)

/-- `Database.get_test_by_code`. -/
def DBState.getTestByCode (db : DBState) (code : String) : Option Test :=
  db.tests.find? (fun t => t.code == code)

/-- `Database.get_test_by_slug`. -/
def DBState.getTestBySlug (db : DBState) (slug : String) : Option Test :=
  db.tests.find? (fun t => t.slug == slug)

/-- `Database.get_test_by_series_and_number`. -/
def DBState.getTestBySeriesAndNumber (db : DBState) (sid : String)
    (n : Int) : Option Test :=
  db.tests.find? (fun t => t.series_id == some sid && t.test_number == some n)

/-- `Database.insert_test`. -/
def DBState.insertTest (db : DBState) (t : Test) : DBState :=
  { db with tests := db.tests ++ [t] }

/-- `Database.update_test`: `update_one({"test_id": ...}, {"$set": payload})`
where the payload excludes `test_id` and `created_at`, so those two stored
fields are preserved. -/
def DBState.updateTest (db : DBState) (t : Test) : DBState :=
  { db with
    tests := db.tests.map (fun u =>
      if u.test_id == t.test_id then
        { t with test_id := u.test_id, created_at := u.created_at }
      else u) }

/-- `Database.insert_topic`. -/
def DBState.insertTopic (db : DBState) (t : Topic) : DBState :=
  { db with topics := db.topics ++ [t] }

/-- `Database.get_questions_by_ids`: a `$in` query; results come back in
collection order (not in the order of the requested ids). -/
def DBState.getQuestionsByIds (db : DBState) (ids : List String) :
    List StoredQuestion :=
  if ids.isEmpty then []
  else db.questions.filter (fun q => ids.contains q.question_id)

/-! ### Python truthiness helpers -/

/-- `str.startswith(p)` at the character level (the extern-backed
`String.startsWith` does not reduce; this equivalent does). -/
def strStartsWith (s p : String) : Bool := p.data.isPrefixOf s.data

/-- Python truthiness of an `Optional[str]`: `None` and `""` are falsy. -/
def strTruthy : Option String → Bool
  | none => false
  | some s => s ≠ ""

/-- Python `a or b` on `Optional[str]` values. -/
def pyOrStr (a b : Option String) : Option String :=
  if strTruthy a then a else b

/-- Python `a or b` where `a : Optional[int]` and `b : int`
(`None` and `0` are falsy). -/
def pyOrInt (a : Option Int) (b : Int) : Int :=
  match a with
  | none => b
  | some n => if n = 0 then b else n

/-! ### Stable sorting (Python's `sorted` is stable) -/

/-- Insert into an already `le`-sorted list, after every element `b` with
`le b a` — the placement Python's stable sort gives a later-coming
element. -/
def insertSorted (le : α → α → Bool) : List α → α → List α
  | [], a => [a]
  | b :: bs, a =>
    if le b a then b :: insertSorted le bs a else a :: b :: bs

/-- Stable sort by a boolean `le` (total preorder), mirroring Python's
`sorted(xs, key=...)`. -/
def sortByBool (le : α → α → Bool) (l : List α) : List α :=
  l.foldl (insertSorted le) []

/-- `sorted(test.questions, key=lambda q: q.seq)`. -/
def sortBySeq (qs : List QuestionReference) : List QuestionReference :=
  sortByBool (fun a b => a.seq ≤ b.seq) qs

/-! ### `app/services/test_service.py` — helpers -/

/-- `_get_test`: load the aggregate or raise 404. -/
def getTestOrFail (db : DBState) (test_id : String) : Except HErr Test :=
  match db.getTest test_id with
  | none => .error ⟨404, "Test not found"⟩
  | some t => .ok t

/-- `_get_section`: first pattern section with the given id, else 404. -/
def getSection (t : Test) (section_id : String) : Except HErr TestSection :=
  match t.pattern.sections.find? (fun s => s.section_id == section_id) with
  | none => .error ⟨404, "Section not found"⟩
  | some s => .ok s

/-- `_ensure_series_exists`: series ids starting with `standalone_` skip the
existence check. -/
def ensureSeriesExists (series_id : Option String) (db : DBState) :
    Except HErr Unit :=
  match series_id with
  | none => .ok ()
  | some sid =>
    if strStartsWith sid "standalone_" then .ok ()
    else match db.getSeries sid with
      | none => .error ⟨404, "Test series not found"⟩
      | some _ => .ok ()

/-- Inner loop of `_validate_sections`: walk the sections carrying the set
of already-seen section ids, rejecting duplicates and unknown subjects. -/
def validateSectionsLoop (db : DBState) (seen : List String) :
    List TestSection → Except HErr Unit
  | [] => .ok ()
  | s :: rest =>
    if seen.contains s.section_id then
      .error ⟨400, "Duplicate section_id in pattern"⟩
    else match db.getSubject s.subject_id with
      | none =>
        .error ⟨400, "Subject " ++ s.subject_id ++ " not found for section "
                      ++ s.section_id⟩
      | some _ => validateSectionsLoop db (s.section_id :: seen) rest

/-- `_validate_sections`: per-section checks, then
`pattern.total_questions == sum of section total_questions`. -/
def validateSections (pattern : TestPattern) (db : DBState) :
    Except HErr Unit :=
  match validateSectionsLoop db [] pattern.sections with
  | .error e => .error e
  | .ok () =>
    if pattern.total_questions
        ≠ (pattern.sections.map (·.total_questions)).sum then
      .error ⟨400,
        "pattern.total_questions must equal sum of section total_questions"⟩
    else .ok ()

/-- `_ensure_test_uniques`. -/
def ensureTestUniques (code slug : String) (series_id : Option String)
    (test_number : Option Int) (db : DBState) : Except HErr Unit :=
  match db.getTestByCode code with
  | some _ => .error ⟨400, "Test code already exists"⟩
  | none =>
  match db.getTestBySlug slug with
  | some _ => .error ⟨400, "Test slug already exists"⟩
  | none =>
    if strTruthy series_id then
      match series_id, test_number with
      | some sid, some n =>
        match db.getTestBySeriesAndNumber sid n with
        | some _ => .error ⟨400, "test_number already exists in series"⟩
        | none => .ok ()
      | _, _ => .ok ()
    else .ok ()

/-- `list(range(1, n + 1))` as a list of ints. -/
def expectedSeqs (n : Nat) : List Int :=
  List.map (fun i => Int.ofNat i + 1) (List.range n)

/-- `_ensure_sequences_contiguous`: sorted seq values must equal
`[1, 2, ..., n]`. -/
def ensureSequencesContiguous (questions : List QuestionReference) :
    Except HErr Unit :=
  if questions.isEmpty then .ok ()
  else if sortByBool (fun a b => a ≤ b) (questions.map (·.seq))
      = expectedSeqs questions.length then .ok ()
  else .error ⟨400,
    "Question sequences must be continuous starting from 1 without gaps"⟩

/-- Count of references placed in a given section
(`Counter(q.section_id for q in test.questions)`). -/
def countSection (qs : List QuestionReference) (section_id : String) : Nat :=
  (qs.filter (fun q => q.section_id == section_id)).length

/-- `_basic_question_set_checks`: duplicate question ids, contiguous
sequences, per-section capacity (first offending section in pattern
order), and the test-level question limit. -/
def basicQuestionSetChecks (t : Test) : Except HErr Unit :=
  let ids := t.questions.map (·.question_id)
  if ids.length ≠ ids.dedup.length then
    .error ⟨400, "Duplicate question_ids in test"⟩
  else
    match (if t.questions.isEmpty then .ok ()
           else ensureSequencesContiguous t.questions : Except HErr Unit) with
    | .error e => .error e
    | .ok () =>
      match t.pattern.sections.find?
          (fun s => (countSection t.questions s.section_id : Int)
                      > s.total_questions) with
      | some s =>
        .error ⟨400, "Section " ++ s.section_id ++ " exceeds total_questions"⟩
      | none =>
        if (t.questions.length : Int) > t.pattern.total_questions then
          .error ⟨400, "Test question limit exceeded"⟩
        else .ok ()

/-- `_build_question_ref`: subject of the question must match the section,
the section must configure a marking scheme for the question's type, and
`None` overrides fall back to the scheme's correct/incorrect marks. -/
def buildQuestionRef (s : TestSection) (q : StoredQuestion) (seq : Int)
    (marks_override negative_override : Option Rat)
    (is_bonus is_optional : Bool) : Except HErr QuestionReference :=
  if s.subject_id ≠ q.subject_id then
    .error ⟨400, "Question " ++ q.question_id
                 ++ " does not belong to section subject " ++ s.subject_id⟩
  else match s.schemeFor q.question_type with
    | none =>
      .error ⟨400, "No marking scheme for this question type in section "
                   ++ s.section_id⟩
    | some scheme =>
      .ok { seq := seq
            section_id := s.section_id
            question_id := q.question_id
            question_type := q.question_type
            subject_id := q.subject_id
            topic_ids := q.topic_ids
            difficulty := q.difficulty
            marks := some (marks_override.getD scheme.correct)
            negative_marks := some (negative_override.getD scheme.incorrect)
            is_bonus := is_bonus
            is_optional := is_optional }

/-- `_fetch_questions_or_fail`: every requested id must resolve; the full
list of missing ids is reported. -/
def fetchQuestionsOrFail (ids : List String) (db : DBState) :
    Except HErr (List StoredQuestion) :=
  let found := db.getQuestionsByIds ids
  let foundIds := found.map (·.question_id)
  let missing := ids.filter (fun i => ¬ foundIds.contains i)
  if missing.isEmpty then .ok found
  else .error ⟨404, "Questions not found: " ++ String.intercalate ", " missing⟩

/-- `_next_seq`: one past the current maximum seq (1 on an empty test). -/
def nextSeq (qs : List QuestionReference) : Int :=
  match qs.map (·.seq) with
  | [] => 1
  | s :: rest => (rest.foldl max s) + 1

/-- Loop of `add_questions_to_test` / `bulk_add_questions`: build one
reference per fetched question, sequencing from `seq` in fetch order. -/
def buildRefs (s : TestSection) (qs : List StoredQuestion) (seq : Int)
    (marks_override negative_override : Option Rat)
    (is_bonus is_optional : Bool) : Except HErr (List QuestionReference) :=
  match qs with
  | [] => .ok []
  | q :: rest =>
    match buildQuestionRef s q seq marks_override negative_override
        is_bonus is_optional with
    | .error e => .error e
    | .ok r =>
      match buildRefs s rest (seq + 1) marks_override negative_override
          is_bonus is_optional with
      | .error e => .error e
      | .ok rs => .ok (r :: rs)

/-! ### `app/services/test_service.py` — operations

Each operation is `... → DBState → Except HErr α × DBState`.  Error
branches return the incoming state; the single db write of each source
function appears exactly where the source performs it. -/

/-- `app/schemas/test.py` `AddQuestionsRequest`. -/
structure AddQuestionsRequest where
  section_id : String
  question_ids : List String
  starting_seq : Option Int := none
  marks : Option Rat := none
  negative_marks : Option Rat := none
  is_bonus : Bool := false
  is_optional : Bool := false
deriving DecidableEq, Repr

/-- `app/schemas/test.py` `BulkCriteria`. -/
structure BulkCriteria where
  subject_id : String
  topic_ids : Option (List String) := none
  difficulty : Option (List Int) := none
  question_types : Option (List QuestionType) := none
deriving DecidableEq, Repr

/-- `app/schemas/test.py` `BulkAddRequest`. -/
structure BulkAddRequest where
  section_id : String
  criteria : BulkCriteria
  count : Int
  strategy : String := "random"
  starting_seq : Option Int := none
deriving DecidableEq, Repr

/-- One entry of `ReorderRequest.question_sequence`, a Python dict read
dynamically via `item.get("question_id") or item.get("id")` and
`item.get("seq")`.  The source schema types the entries
`Dict[str, int]`, so the ids a client can actually submit are integers;
this model widens the id values to strings.  The widening only ADDS
behaviors (every dict the program accepts is representable with its id
rendered as a string that matches no stored `question_id`, and the
loop's checks behave identically on it), so properties proved here for
ALL requests — contiguity on success, nothing persisted on error — hold
in particular on the reachable ones.  `ReorderRequestTyped` below keeps
the exact `Dict[str, int]` typing and is used for the claim about
reorder's own resolution semantics, which the widening would
misrepresent. -/
structure ReorderItem where
  question_id : Option String := none
  id : Option String := none
  seq : Option Int := none
deriving DecidableEq, Repr

/-- `app/schemas/test.py` `ReorderRequest`, with the id widening of
`ReorderItem`. -/
structure ReorderRequest where
  section_id : String
  question_sequence : List ReorderItem
deriving DecidableEq, Repr

/-- `app/schemas/test.py` `ReplaceQuestionRequest`. -/
structure ReplaceQuestionRequest where
  new_question_id : String
  preserve_sequence : Bool := true
deriving DecidableEq, Repr

/-- `app/schemas/test.py` `UpdateMarksRequest`, dumped with
`exclude_unset=True`: an outer `none` means the field was not supplied;
`marks`/`negative_marks` may be explicitly set to null (inner `none`).
Explicitly-null booleans would corrupt the typed aggregate in Python and
are outside the embedding. -/
structure UpdateMarksRequest where
  marks : Option (Option Rat) := none
  negative_marks : Option (Option Rat) := none
  is_bonus : Option Bool := none
  is_optional : Option Bool := none
deriving DecidableEq, Repr

/-- `app/schemas/test.py` `TestUpdate`, dumped with `exclude_unset=True`.
Fields whose target is non-optional are modelled as set-or-unset
(explicit nulls there would corrupt the typed aggregate in Python);
`description`/`version`/`language` may be set to null. -/
structure TestUpdatePatch where
  name : Option String := none
  description : Option (Option String) := none
  pattern : Option TestPattern := none
  is_active : Option Bool := none
  status : Option TestStatus := none
  tags : Option (List String) := none
  version : Option (Option String) := none
  language : Option (Option String) := none
deriving DecidableEq, Repr

/-- `existing.copy(update=update_data)` in `update_test`. -/
def applyTestPatch (t : Test) (p : TestUpdatePatch) : Test :=
  { t with
    name := p.name.getD t.name
    description := p.description.getD t.description
    pattern := p.pattern.getD t.pattern
    is_active := p.is_active.getD t.is_active
    status := p.status.getD t.status
    tags := p.tags.getD t.tags
    version := p.version.getD t.version
    language := p.language.getD t.language }

/-- Series-id / test-number assignment of `create_test`: an explicit
(Python-truthy) `series_id` is kept with `test_number` defaulting to 0;
otherwise a standalone series id is generated and `test_number` defaults
to 1. -/
def chosenSeries (data : TestCreate) (standaloneUuid : String) :
    Option String × Int :=
  if strTruthy data.series_id then (data.series_id, data.test_number.getD 0)
  else (some ("standalone_" ++ standaloneUuid), data.test_number.getD 1)

/-- The `TestResponse` record `create_test` builds before validation. -/
def builtTest (data : TestCreate) (testUuid : String) (now : Int)
    (sid : Option String) (tn : Int) : Test :=
  { test_id := "test_" ++ testUuid
    code := data.code
    slug := data.slug
    series_id := sid
    test_number := some tn
    name := data.name
    description := data.description
    pattern := data.pattern
    questions := data.questions
    is_active := data.is_active
    status := data.status
    tags := data.tags
    version := data.version
    language := data.language
    created_at := now
    updated_at := now }

/-- `create_test`.  `standaloneUuid`/`testUuid` stand for the two
`uuid.uuid4()` draws, `now` for `datetime.utcnow()`. -/
def createTest (data : TestCreate) (standaloneUuid testUuid : String)
    (now : Int) (db : DBState) : Except HErr Test × DBState :=
  match ensureSeriesExists (chosenSeries data standaloneUuid).1 db with
  | .error e => (.error e, db)
  | .ok () =>
  match ensureTestUniques data.code data.slug (chosenSeries data standaloneUuid).1
      (some (chosenSeries data standaloneUuid).2) db with
  | .error e => (.error e, db)
  | .ok () =>
  match validateSections data.pattern db with
  | .error e => (.error e, db)
  | .ok () =>
    match basicQuestionSetChecks (builtTest data testUuid now
        (chosenSeries data standaloneUuid).1
        (chosenSeries data standaloneUuid).2) with
    | .error e => (.error e, db)
    | .ok () =>
      (.ok (builtTest data testUuid now (chosenSeries data standaloneUuid).1
              (chosenSeries data standaloneUuid).2),
       db.insertTest (builtTest data testUuid now
              (chosenSeries data standaloneUuid).1
              (chosenSeries data standaloneUuid).2))

/-- `update_test`.  The source's identifier-rejection branch is dead code
(`TestUpdate` has no `series_id`/`test_number`/`test_id` fields, so
`model_dump(exclude_unset=True)` can never contain them) and is omitted.
`if merged.pattern:` is always true for a well-typed pattern. -/
def updateTest (test_id : String) (p : TestUpdatePatch) (now : Int)
    (db : DBState) : Except HErr Test × DBState :=
  match getTestOrFail db test_id with
  | .error e => (.error e, db)
  | .ok existing =>
    let merged := applyTestPatch existing p
    match validateSections merged.pattern db with
    | .error e => (.error e, db)
    | .ok () =>
      let sectionIds := merged.pattern.sections.map (·.section_id)
      match merged.questions.find?
          (fun q => ¬ sectionIds.contains q.section_id) with
      | some q =>
        (.error ⟨400, "Question " ++ q.question_id
                      ++ " belongs to removed section " ++ q.section_id⟩, db)
      | none =>
      match basicQuestionSetChecks merged with
      | .error e => (.error e, db)
      | .ok () =>
        let merged' := { merged with updated_at := now }
        (.ok merged', db.updateTest merged')

/-- `add_questions_to_test`. -/
def addQuestionsToTest (test_id : String) (p : AddQuestionsRequest)
    (now : Int) (db : DBState) :
    Except HErr (List QuestionReference) × DBState :=
  match getTestOrFail db test_id with
  | .error e => (.error e, db)
  | .ok test =>
  match getSection test p.section_id with
  | .error e => (.error e, db)
  | .ok sec =>
    if p.question_ids.isEmpty then
      (.error ⟨400, "question_ids required"⟩, db)
    else if (p.starting_seq.map (fun n => decide (n < 1))).getD false then
      (.error ⟨400, "starting_seq must be >= 1"⟩, db)
    else
      let existingIds := test.questions.map (·.question_id)
      let dup := p.question_ids.filter (fun q => existingIds.contains q)
      if ¬ dup.isEmpty then
        (.error ⟨400, "Duplicate questions already in test: "
                      ++ String.intercalate ", " dup⟩, db)
      else match fetchQuestionsOrFail p.question_ids db with
      | .error e => (.error e, db)
      | .ok fetched =>
        let start := pyOrInt p.starting_seq (nextSeq test.questions)
        match buildRefs sec fetched start p.marks p.negative_marks
            p.is_bonus p.is_optional with
        | .error e => (.error e, db)
        | .ok newRefs =>
          let updated := sortBySeq (test.questions ++ newRefs)
          if (countSection updated sec.section_id : Int)
              > sec.total_questions then
            (.error ⟨400, "Section question limit exceeded"⟩, db)
          else if (updated.length : Int) > test.pattern.total_questions then
            (.error ⟨400, "Test question limit exceeded"⟩, db)
          else match ensureSequencesContiguous updated with
          | .error e => (.error e, db)
          | .ok () =>
            (.ok newRefs,
             db.updateTest { test with questions := updated,
                                       updated_at := now })

/-- The Mongo query `bulk_add_questions` builds: subject equality,
`is_active`, `$ne` on `schema_version`, and `$in` filters added only when
the criteria lists are truthy (non-`None` and non-empty). -/
def matchesBulkQuery (c : BulkCriteria) (q : StoredQuestion) : Bool :=
  q.schema_version ≠ some 2
  && q.subject_id == c.subject_id
  && q.is_active
  && (match c.topic_ids with
      | some l => l.isEmpty || l.any (fun t => q.topic_ids.contains t)
      | none => true)
  && (match c.difficulty with
      | some l => l.isEmpty || l.contains q.difficulty
      | none => true)
  && (match c.question_types with
      | some l => l.isEmpty || l.contains q.question_type
      | none => true)

/-- Left rotation — the embedding of Mongo's `$sample` nondeterminism: an
explicit `entropy` argument selects a rotation of the matching documents.
Every output of this model is an output `$sample` can produce, which is
what the claims about (non-)determinism need. -/
def rotateBy (n : Nat) (l : List α) : List α :=
  l.drop (n % l.length) ++ l.take (n % l.length)

/-- `Database.find_questions(query, sample=count)`. -/
def findQuestionsSample (db : DBState) (c : BulkCriteria) (count : Int)
    (entropy : Nat) : List StoredQuestion :=
  let m := db.questions.filter (matchesBulkQuery c)
  if m.isEmpty then []
  else (rotateBy entropy m).take (min count.toNat m.length)

/-- `bulk_add_questions`.  Note that, unlike `add_questions_to_test`, the
source performs no section-capacity or test-capacity re-check before
writing. -/
def bulkAddQuestions (test_id : String) (p : BulkAddRequest) (now : Int)
    (entropy : Nat) (db : DBState) :
    Except HErr (List QuestionReference) × DBState :=
  match getTestOrFail db test_id with
  | .error e => (.error e, db)
  | .ok test =>
  match getSection test p.section_id with
  | .error e => (.error e, db)
  | .ok sec =>
    if p.count ≤ 0 then
      (.error ⟨400, "count must be greater than 0"⟩, db)
    else if p.criteria.subject_id ≠ sec.subject_id then
      (.error ⟨400, "Criteria subject_id must match section subject_id"⟩, db)
    else
      let strat := if p.strategy = "" then "random" else p.strategy
      let m := db.questions.filter (matchesBulkQuery p.criteria)
      let selected :=
        if strat = "random" then
          findQuestionsSample db p.criteria p.count entropy
        else if strat = "difficulty_sorted" then
          (sortByBool (fun a b => a.difficulty ≤ b.difficulty) m).take
            p.count.toNat
        else
          (sortByBool (fun a b =>
              a.question_id < b.question_id
                || a.question_id == b.question_id) m).take p.count.toNat
      if (selected.length : Int) < p.count then
        (.error ⟨400, "Only found fewer questions matching criteria than requested"⟩,
         db)
      else
        let existingIds := test.questions.map (·.question_id)
        let dups := (selected.filter
          (fun q => existingIds.contains q.question_id)).map (·.question_id)
        if ¬ dups.isEmpty then
          (.error ⟨400, "Questions already present in test: "
                        ++ String.intercalate ", " dups⟩, db)
        else
          let start := pyOrInt p.starting_seq (nextSeq test.questions)
          match buildRefs sec (selected.take p.count.toNat) start none none
              false false with
          | .error e => (.error e, db)
          | .ok newRefs =>
            let updated := sortBySeq (test.questions ++ newRefs)
            match ensureSequencesContiguous updated with
            | .error e => (.error e, db)
            | .ok () =>
              (.ok newRefs,
               db.updateTest { test with questions := updated,
                                         updated_at := now })

/-- Renumber in list order starting from `start`
(`for idx, ref in enumerate(..., start=1): ref.seq = idx`). -/
def resequence (start : Int) : List QuestionReference → List QuestionReference
  | [] => []
  | q :: rest => { q with seq := start } :: resequence (start + 1) rest

/-- `remove_question`: drop the reference, then resequence the remaining
ones to 1..N in their existing relative seq order. -/
def removeQuestion (test_id question_id : String) (now : Int)
    (db : DBState) : Except HErr Unit × DBState :=
  match getTestOrFail db test_id with
  | .error e => (.error e, db)
  | .ok test =>
    if ¬ (test.questions.map (·.question_id)).contains question_id then
      (.error ⟨404, "Question not found in test"⟩, db)
    else
      let remaining :=
        test.questions.filter (fun q => q.question_id ≠ question_id)
      let reseq := resequence 1 (sortBySeq remaining)
      match ensureSequencesContiguous reseq with
      | .error e => (.error e, db)
      | .ok () =>
        (.ok (),
         db.updateTest { test with questions := reseq, updated_at := now })

/-- Per-item loop of `reorder_questions`: each item needs a question id
(`question_id` or `id`, Python-truthy) and a seq ≥ 1, must resolve to a
reference of the test, and that reference must belong to the named
section; the new seq is applied in place before the next item is
examined.  Stored tests have unique question ids (every mutating
operation enforces this), under which updating by id equals the source's
mutation of the object found in its `question_map`. -/
def applyReorderLoop (sec : TestSection) (qs : List QuestionReference) :
    List ReorderItem → Except HErr (List QuestionReference)
  | [] => .ok qs
  | item :: rest =>
    match pyOrStr item.question_id item.id with
    | none => .error ⟨400, "Each item requires question_id and seq"⟩
    | some qid =>
      if qid = "" then .error ⟨400, "Each item requires question_id and seq"⟩
      else match item.seq with
      | none => .error ⟨400, "Each item requires question_id and seq"⟩
      | some s =>
        if s < 1 then .error ⟨400, "Sequence numbers must be >= 1"⟩
        else match qs.find? (fun q => q.question_id == qid) with
        | none => .error ⟨404, "Question " ++ qid ++ " not found in test"⟩
        | some ref =>
          if ref.section_id ≠ sec.section_id then
            .error ⟨400, "Question " ++ qid ++ " does not belong to section "
                         ++ sec.section_id⟩
          else applyReorderLoop sec
            (qs.map (fun q =>
              if q.question_id == qid then { q with seq := s } else q)) rest

/-- `reorder_questions`. -/
def reorderQuestions (test_id : String) (p : ReorderRequest) (now : Int)
    (db : DBState) : Except HErr (List QuestionReference) × DBState :=
  match getTestOrFail db test_id with
  | .error e => (.error e, db)
  | .ok test =>
  match getSection test p.section_id with
  | .error e => (.error e, db)
  | .ok sec =>
    match applyReorderLoop sec test.questions p.question_sequence with
    | .error e => (.error e, db)
    | .ok qs' =>
      let seqs := qs'.map (·.seq)
      if seqs.length ≠ seqs.dedup.length then
        (.error ⟨400, "Duplicate sequence numbers not allowed"⟩, db)
      else match ensureSequencesContiguous qs' with
      | .error e => (.error e, db)
      | .ok () =>
        (.ok (sortBySeq qs'),
         db.updateTest { test with questions := qs', updated_at := now })

/-- `item.get(key)` on a `Dict[str, int]` entry. -/
def pyDictGetInt (item : List (String × Int)) (k : String) : Option Int :=
  (item.find? (fun kv => kv.1 == k)).map (·.2)

/-- Python truthiness of `Optional[int]` (`None` and `0` are falsy). -/
def intTruthy : Option Int → Bool
  | none => false
  | some n => n ≠ 0

/-- Python `a or b` on `Optional[int]` values. -/
def pyOrIntOpt (a b : Option Int) : Option Int :=
  if intTruthy a then a else b

/-- Python `==` between an `int` and a `str` is always `False`, so an
`int` key never hits a `str`-keyed dict. -/
def pyIntEqStr (_ : Int) (_ : String) : Bool := false

/-- `ReorderRequest` exactly as the source types it
(`question_sequence: List[Dict[str, int]]`): each entry is a dict with
`str` keys and `int` values, so the question ids a client can submit
are integers, while the stored `QuestionReference.question_id`s are
strings. -/
structure ReorderRequestTyped where
  section_id : String
  question_sequence : List (List (String × Int))
deriving DecidableEq, Repr

/-- Per-item loop of `reorder_questions` over the typed entries:
`qid = item.get("question_id") or item.get("id")` is an `int` (missing
and `0` are falsy → 400), `seq = item.get("seq")` (missing → 400,
`< 1` → 400); then `question_map.get(qid)` looks the `int` qid up in
the dict keyed by the `str` question ids, which never matches
(`pyIntEqStr`), so the item reaches the 404.  The matched branch is
translated nonetheless, mirroring the source text. -/
def applyReorderLoopTyped (sec : TestSection)
    (qs : List QuestionReference) :
    List (List (String × Int)) → Except HErr (List QuestionReference)
  | [] => .ok qs
  | item :: rest =>
    let qid := pyOrIntOpt (pyDictGetInt item "question_id")
      (pyDictGetInt item "id")
    let seq := pyDictGetInt item "seq"
    if ¬ intTruthy qid ∨ seq = none then
      .error ⟨400, "Each item requires question_id and seq"⟩
    else if seq.getD 0 < 1 then
      .error ⟨400, "Sequence numbers must be >= 1"⟩
    else
      match qs.find? (fun q => pyIntEqStr (qid.getD 0) q.question_id) with
      | none =>
        .error ⟨404, "Question " ++ toString (qid.getD 0)
                     ++ " not found in test"⟩
      | some ref =>
        if ref.section_id ≠ sec.section_id then
          .error ⟨400, "Question " ++ toString (qid.getD 0)
                       ++ " does not belong to section " ++ sec.section_id⟩
        else
          applyReorderLoopTyped sec
            (qs.map (fun q =>
              if pyIntEqStr (qid.getD 0) q.question_id then
                { q with seq := seq.getD 0 }
              else q)) rest

/-- `reorder_questions` over the exact request typing. -/
def reorderQuestionsTyped (test_id : String) (p : ReorderRequestTyped)
    (now : Int) (db : DBState) :
    Except HErr (List QuestionReference) × DBState :=
  match getTestOrFail db test_id with
  | .error e => (.error e, db)
  | .ok test =>
  match getSection test p.section_id with
  | .error e => (.error e, db)
  | .ok sec =>
    match applyReorderLoopTyped sec test.questions p.question_sequence with
    | .error e => (.error e, db)
    | .ok qs' =>
      let seqs := qs'.map (·.seq)
      if seqs.length ≠ seqs.dedup.length then
        (.error ⟨400, "Duplicate sequence numbers not allowed"⟩, db)
      else match ensureSequencesContiguous qs' with
      | .error e => (.error e, db)
      | .ok () =>
        (.ok (sortBySeq qs'),
         db.updateTest { test with questions := qs', updated_at := now })

/-- Replace the first reference whose question id matches. -/
def replaceFirst (old_id : String) (r : QuestionReference) :
    List QuestionReference → List QuestionReference
  | [] => []
  | q :: rest =>
    if q.question_id == old_id then r :: rest
    else q :: replaceFirst old_id r rest

/-- `replace_question`.  The replacement reference is built with the old
reference's marks/negative_marks passed as the overrides of
`_build_question_ref` — so a stored `None` falls back to the section
scheme.  The unreachable empty-fetch case mirrors the `IndexError` the
source would raise. -/
def replaceQuestion (test_id old_question_id : String)
    (p : ReplaceQuestionRequest) (now : Int) (db : DBState) :
    Except HErr QuestionReference × DBState :=
  match getTestOrFail db test_id with
  | .error e => (.error e, db)
  | .ok test =>
  match test.questions.find? (fun q => q.question_id == old_question_id) with
  | none => (.error ⟨404, "Question not found in test"⟩, db)
  | some ref =>
  match getSection test ref.section_id with
  | .error e => (.error e, db)
  | .ok sec =>
    if ((test.questions.filter
          (fun q => q.question_id ≠ old_question_id)).map
          (·.question_id)).contains p.new_question_id then
      (.error ⟨400, "New question already present in test"⟩, db)
    else match fetchQuestionsOrFail [p.new_question_id] db with
    | .error e => (.error e, db)
    | .ok found =>
    match found with
    | [] => (.error ⟨500, "IndexError"⟩, db)
    | newQ :: _ =>
      match buildQuestionRef sec newQ
          (if p.preserve_sequence then ref.seq else nextSeq test.questions)
          ref.marks ref.negative_marks ref.is_bonus ref.is_optional with
      | .error e => (.error e, db)
      | .ok newRef =>
        let qs' := sortBySeq (replaceFirst old_question_id newRef
                                test.questions)
        match ensureSequencesContiguous qs' with
        | .error e => (.error e, db)
        | .ok () =>
          (.ok newRef,
           db.updateTest { test with questions := qs', updated_at := now })

/-- Apply the first matching element's update
(`next(q for q in ... if ...)` + in-place mutation). -/
def mapFirst (p : α → Bool) (f : α → α) : List α → List α
  | [] => []
  | x :: xs => if p x then f x :: xs else x :: mapFirst p f xs

/-- `setattr(ref, field, value)` for every field present in the
`exclude_unset` dump of `UpdateMarksRequest`. -/
def applyMarksPatch (p : UpdateMarksRequest) (q : QuestionReference) :
    QuestionReference :=
  { q with
    marks := p.marks.getD q.marks
    negative_marks := p.negative_marks.getD q.negative_marks
    is_bonus := p.is_bonus.getD q.is_bonus
    is_optional := p.is_optional.getD q.is_optional }

/-- `update_question_marks`: patch one existing reference, no validation
of the resulting state. -/
def updateQuestionMarks (test_id question_id : String)
    (p : UpdateMarksRequest) (now : Int) (db : DBState) :
    Except HErr QuestionReference × DBState :=
  match getTestOrFail db test_id with
  | .error e => (.error e, db)
  | .ok test =>
  match test.questions.find? (fun q => q.question_id == question_id) with
  | none => (.error ⟨404, "Question not found in test"⟩, db)
  | some ref =>
    let qs' := mapFirst (fun q => q.question_id == question_id)
                 (applyMarksPatch p) test.questions
    (.ok (applyMarksPatch p ref),
     db.updateTest { test with questions := qs', updated_at := now })

/-! ### `app/services/master_service.py` — `create_topic` -/

/-- `_validate_topic_references`: each referenced topic must exist (404)
and belong to the same subject (400). -/
def validateTopicRefs (topicSubject : String) (db : DBState) :
    List String → Except HErr Unit
  | [] => .ok ()
  | rid :: rest =>
    match db.getTopic rid with
    | none => .error ⟨404, "Referenced topic " ++ rid ++ " not found"⟩
    | some rt =>
      if rt.subject_id ≠ topicSubject then
        .error ⟨400, "Topic " ++ rid ++ " does not belong to subject "
                     ++ topicSubject⟩
      else validateTopicRefs topicSubject db rest

/-- `create_topic`. -/
def createTopic (tc : TopicCreate) (genUuid : String) (now : Int)
    (db : DBState) : Except HErr Topic × DBState :=
  match db.getSubject tc.subject_id with
  | none => (.error ⟨404, "Subject not found"⟩, db)
  | some _ =>
    let topic_id := (pyOrStr tc.id (some ("topic_" ++ genUuid))).getD ""
    match db.getTopic topic_id with
    | some _ => (.error ⟨400, "Topic id already exists"⟩, db)
    | none =>
    match db.getTopicBySlug tc.subject_id tc.slug with
    | some _ =>
      (.error ⟨400, "Topic slug already exists for this subject"⟩, db)
    | none =>
      let created : Topic :=
        { id := topic_id
          subject_id := tc.subject_id
          name := tc.name
          slug := tc.slug
          related_topic_ids := tc.related_topic_ids
          prerequisite_topic_ids := tc.prerequisite_topic_ids
          is_active := tc.is_active
          created_at := now
          updated_at := now }
      match validateTopicRefs created.subject_id db
          created.related_topic_ids with
      | .error e => (.error e, db)
      | .ok () =>
      match validateTopicRefs created.subject_id db
          created.prerequisite_topic_ids with
      | .error e => (.error e, db)
      | .ok () => (.ok created, db.insertTopic created)

/-! ### Basic lemmas about the embedding -/

/-- The sequence-contiguity invariant of §3 of the spec: sorting the seq
values yields `[1, 2, ..., n]`; equivalently (second conjunct) the seq
values are a permutation of `1..n`. -/
def contiguousSeqs (qs : List QuestionReference) : Prop :=
  sortByBool (fun a b => a ≤ b) (qs.map (·.seq)) = expectedSeqs qs.length
  ∧ (qs.map (·.seq)).Perm (expectedSeqs qs.length)

theorem insertSorted_perm (le : α → α → Bool) (s : List α) (a : α) :
    (insertSorted le s a).Perm (s ++ [a]) := by
  induction s with
  | nil => simp [insertSorted]
  | cons b bs ih =>
    simp only [insertSorted]
    split
    · exact List.Perm.cons b ih
    · exact (List.perm_append_singleton a (b :: bs)).symm

theorem foldl_insertSorted_perm (le : α → α → Bool) (l : List α) :
    ∀ acc, (l.foldl (insertSorted le) acc).Perm (acc ++ l) := by
  induction l with
  | nil => intro acc; simp
  | cons x xs ih =>
    intro acc
    have h1 := ih (insertSorted le acc x)
    have h2 : (insertSorted le acc x ++ xs).Perm ((acc ++ [x]) ++ xs) :=
      (insertSorted_perm le acc x).append_right xs
    have h3 : (acc ++ [x]) ++ xs = acc ++ x :: xs := by simp
    rw [h3] at h2
    simpa [List.foldl_cons] using h1.trans h2

theorem sortByBool_perm (le : α → α → Bool) (l : List α) :
    (sortByBool le l).Perm l := by
  simpa using foldl_insertSorted_perm le l []

theorem contiguous_of_ensure {qs : List QuestionReference}
    (h : ensureSequencesContiguous qs = .ok ()) : contiguousSeqs qs := by
  unfold ensureSequencesContiguous at h
  split at h
  · rename_i he
    have hq : qs = [] := by simpa using he
    subst hq
    exact ⟨rfl, by simp [expectedSeqs]⟩
  · split at h
    · rename_i hsorted
      refine ⟨hsorted, ?_⟩
      have hp := (sortByBool_perm (fun a b : Int => decide (a ≤ b))
        (qs.map (·.seq))).symm
      rw [hsorted] at hp
      simpa using hp
    · exact absurd h (by simp)

theorem getTest_some_id {db : DBState} {tid : String} {t : Test}
    (h : db.getTest tid = some t) : t.test_id = tid := by
  unfold DBState.getTest at h
  simpa using List.find?_some h

theorem getTestOrFail_ok {db : DBState} {tid : String} {t : Test}
    (h : getTestOrFail db tid = .ok t) :
    db.getTest tid = some t ∧ t.test_id = tid := by
  unfold getTestOrFail at h
  split at h
  · cases h
  · rename_i ht
    cases h
    exact ⟨ht, getTest_some_id ht⟩

theorem find?_updateTests (l : List Test) (t' : Test) (tid : String)
    (hid : t'.test_id = tid)
    (h : (l.find? (fun t => t.test_id == tid)).isSome) :
    ∃ u, (l.map (fun u => if u.test_id == t'.test_id
            then { t' with test_id := u.test_id, created_at := u.created_at }
            else u)).find? (fun t => t.test_id == tid) = some u
        ∧ u.questions = t'.questions ∧ u.pattern = t'.pattern := by
  induction l with
  | nil => simp at h
  | cons a l ih =>
    by_cases ha : a.test_id = tid
    · refine ⟨{ t' with test_id := a.test_id, created_at := a.created_at },
        ?_, rfl, rfl⟩
      simp [List.find?, ha, hid]
    · have h' : (l.find? (fun t => t.test_id == tid)).isSome := by
        simpa [List.find?_cons, ha] using h
      obtain ⟨u, hu, hq⟩ := ih h'
      refine ⟨u, ?_, hq⟩
      have hcond : (a.test_id == t'.test_id) = false := by
        simp [hid, ha]
      rw [List.map_cons]
      rw [show (if (a.test_id == t'.test_id) = true then
            { t' with test_id := a.test_id, created_at := a.created_at }
            else a) = a from by simp [hcond]]
      rw [List.find?_cons_of_neg _ (by simp [ha])]
      exact hu

/-- Reading back the test just written by `Database.update_test`: the
stored aggregate carries exactly the written question list. -/
theorem getTest_updateTest {db : DBState} {t' : Test} {tid : String}
    (hid : t'.test_id = tid) (h : (db.getTest tid).isSome) :
    ∃ u, (db.updateTest t').getTest tid = some u
        ∧ u.questions = t'.questions ∧ u.pattern = t'.pattern := by
  unfold DBState.getTest DBState.updateTest at *
  exact find?_updateTests db.tests t' tid hid h

/-! ### Inversion lemmas: success shapes and write placement -/

theorem createTest_state (data : TestCreate) (u1 u2 : String) (now : Int)
    (db : DBState) :
    (createTest data u1 u2 now db).2 = db
    ∨ ∃ t, (createTest data u1 u2 now db).1 = .ok t := by
  unfold createTest
  try dsimp only
  repeat' split
  all_goals simp

theorem updateTest_state (tid : String) (p : TestUpdatePatch) (now : Int)
    (db : DBState) :
    (updateTest tid p now db).2 = db
    ∨ ∃ t, (updateTest tid p now db).1 = .ok t := by
  unfold updateTest
  try dsimp only
  repeat' split
  all_goals simp

theorem addQuestions_state (tid : String) (p : AddQuestionsRequest)
    (now : Int) (db : DBState) :
    (addQuestionsToTest tid p now db).2 = db
    ∨ ∃ r, (addQuestionsToTest tid p now db).1 = .ok r := by
  unfold addQuestionsToTest
  try dsimp only
  repeat' split
  all_goals simp

theorem bulkAdd_state (tid : String) (p : BulkAddRequest) (now : Int)
    (entropy : Nat) (db : DBState) :
    (bulkAddQuestions tid p now entropy db).2 = db
    ∨ ∃ r, (bulkAddQuestions tid p now entropy db).1 = .ok r := by
  unfold bulkAddQuestions
  try dsimp only
  repeat' split
  all_goals simp

theorem removeQuestion_state (tid qid : String) (now : Int) (db : DBState) :
    (removeQuestion tid qid now db).2 = db
    ∨ ∃ r, (removeQuestion tid qid now db).1 = .ok r := by
  unfold removeQuestion
  try dsimp only
  repeat' split
  all_goals simp

theorem reorderQuestions_state (tid : String) (p : ReorderRequest)
    (now : Int) (db : DBState) :
    (reorderQuestions tid p now db).2 = db
    ∨ ∃ r, (reorderQuestions tid p now db).1 = .ok r := by
  unfold reorderQuestions
  try dsimp only
  repeat' split
  all_goals simp

theorem replaceQuestion_state (tid oldq : String)
    (p : ReplaceQuestionRequest) (now : Int) (db : DBState) :
    (replaceQuestion tid oldq p now db).2 = db
    ∨ ∃ r, (replaceQuestion tid oldq p now db).1 = .ok r := by
  unfold replaceQuestion
  try dsimp only
  repeat' split
  all_goals simp

theorem updateMarks_state (tid qid : String) (p : UpdateMarksRequest)
    (now : Int) (db : DBState) :
    (updateQuestionMarks tid qid p now db).2 = db
    ∨ ∃ r, (updateQuestionMarks tid qid p now db).1 = .ok r := by
  unfold updateQuestionMarks
  try dsimp only
  repeat' split
  all_goals simp

theorem createTest_ok_inv {data : TestCreate} {u1 u2 : String} {now : Int}
    {db db' : DBState} {t : Test}
    (h : createTest data u1 u2 now db = (.ok t, db')) :
    t = builtTest data u2 now (chosenSeries data u1).1 (chosenSeries data u1).2
    ∧ ensureSeriesExists (chosenSeries data u1).1 db = .ok ()
    ∧ ensureTestUniques data.code data.slug (chosenSeries data u1).1
        (some (chosenSeries data u1).2) db = .ok ()
    ∧ validateSections data.pattern db = .ok ()
    ∧ basicQuestionSetChecks t = .ok ()
    ∧ db' = db.insertTest t := by
  unfold createTest at h
  split at h
  · simp at h
  rename_i h1
  split at h
  · simp at h
  rename_i h2
  split at h
  · simp at h
  rename_i h3
  split at h
  · simp at h
  rename_i h4
  simp only [Prod.mk.injEq, Except.ok.injEq] at h
  obtain ⟨rfl, rfl⟩ := h
  exact ⟨rfl, h1, h2, h3, h4, rfl⟩

theorem updateTest_ok_inv {tid : String} {p : TestUpdatePatch} {now : Int}
    {db db' : DBState} {t : Test}
    (h : updateTest tid p now db = (.ok t, db')) :
    ∃ existing, getTestOrFail db tid = .ok existing
    ∧ validateSections (applyTestPatch existing p).pattern db = .ok ()
    ∧ basicQuestionSetChecks (applyTestPatch existing p) = .ok ()
    ∧ t = { applyTestPatch existing p with updated_at := now }
    ∧ db' = db.updateTest t := by
  unfold updateTest at h
  dsimp only at h
  split at h
  · simp at h
  rename_i existing h1
  split at h
  · simp at h
  rename_i h2
  split at h
  · simp at h
  split at h
  · simp at h
  rename_i h4
  simp only [Prod.mk.injEq, Except.ok.injEq] at h
  obtain ⟨rfl, rfl⟩ := h
  exact ⟨existing, h1, h2, h4, rfl, rfl⟩

theorem addQuestions_ok_inv {tid : String} {p : AddQuestionsRequest}
    {now : Int} {db db' : DBState} {refs : List QuestionReference}
    (h : addQuestionsToTest tid p now db = (.ok refs, db')) :
    ∃ test, getTestOrFail db tid = .ok test
    ∧ ensureSequencesContiguous (sortBySeq (test.questions ++ refs)) = .ok ()
    ∧ db' = db.updateTest { test with
        questions := sortBySeq (test.questions ++ refs), updated_at := now } := by
  unfold addQuestionsToTest at h
  dsimp only at h
  split at h
  · simp at h
  rename_i test h1
  split at h
  · simp at h
  rename_i sec h2
  split at h
  · simp at h
  split at h
  · simp at h
  split at h
  · simp at h
  split at h
  · simp at h
  rename_i fetched h3
  split at h
  · simp at h
  rename_i newRefs h4
  split at h
  · simp at h
  split at h
  · simp at h
  split at h
  · simp at h
  rename_i h5
  simp only [Prod.mk.injEq, Except.ok.injEq] at h
  obtain ⟨rfl, rfl⟩ := h
  exact ⟨test, h1, h5, rfl⟩

theorem bulkAdd_ok_inv {tid : String} {p : BulkAddRequest} {now : Int}
    {entropy : Nat} {db db' : DBState} {refs : List QuestionReference}
    (h : bulkAddQuestions tid p now entropy db = (.ok refs, db')) :
    ∃ test, getTestOrFail db tid = .ok test
    ∧ ensureSequencesContiguous (sortBySeq (test.questions ++ refs)) = .ok ()
    ∧ db' = db.updateTest { test with
        questions := sortBySeq (test.questions ++ refs), updated_at := now } := by
  unfold bulkAddQuestions at h
  dsimp only at h
  split at h
  · simp at h
  rename_i test h1
  split at h
  · simp at h
  rename_i sec h2
  repeat' split at h
  all_goals simp only [Prod.mk.injEq, Except.ok.injEq, reduceCtorEq,
    false_and] at h
  all_goals obtain ⟨rfl, rfl⟩ := h
  all_goals exact ⟨test, h1, by assumption, rfl⟩

theorem removeQuestion_ok_inv {tid qid : String} {now : Int}
    {db db' : DBState} {r : Unit}
    (h : removeQuestion tid qid now db = (.ok r, db')) :
    ∃ test, getTestOrFail db tid = .ok test
    ∧ ensureSequencesContiguous (resequence 1 (sortBySeq
        (test.questions.filter (fun q => q.question_id ≠ qid)))) = .ok ()
    ∧ db' = db.updateTest { test with
        questions := resequence 1 (sortBySeq
          (test.questions.filter (fun q => q.question_id ≠ qid))),
        updated_at := now } := by
  unfold removeQuestion at h
  dsimp only at h
  split at h
  · simp at h
  rename_i test h1
  split at h
  · simp at h
  split at h
  · simp at h
  rename_i h2
  simp only [Prod.mk.injEq, Except.ok.injEq] at h
  obtain ⟨-, rfl⟩ := h
  exact ⟨test, h1, h2, rfl⟩

theorem reorderQuestions_ok_inv {tid : String} {p : ReorderRequest}
    {now : Int} {db db' : DBState} {refs : List QuestionReference}
    (h : reorderQuestions tid p now db = (.ok refs, db')) :
    ∃ test sec qs', getTestOrFail db tid = .ok test
    ∧ getSection test p.section_id = .ok sec
    ∧ applyReorderLoop sec test.questions p.question_sequence = .ok qs'
    ∧ (qs'.map (·.seq)).length = (qs'.map (·.seq)).dedup.length
    ∧ ensureSequencesContiguous qs' = .ok ()
    ∧ refs = sortBySeq qs'
    ∧ db' = db.updateTest { test with questions := qs', updated_at := now } := by
  unfold reorderQuestions at h
  dsimp only at h
  split at h
  · simp at h
  rename_i test h1
  split at h
  · simp at h
  rename_i sec h2
  split at h
  · simp at h
  rename_i qs' h3
  split at h
  · simp at h
  rename_i h4
  split at h
  · simp at h
  rename_i h5
  simp only [Prod.mk.injEq, Except.ok.injEq] at h
  obtain ⟨rfl, rfl⟩ := h
  refine ⟨test, sec, qs', h1, h2, h3, ?_, h5, rfl, rfl⟩
  by_contra hne
  exact h4 hne

theorem replaceQuestion_ok_inv {tid oldq : String}
    {p : ReplaceQuestionRequest} {now : Int} {db db' : DBState}
    {r : QuestionReference}
    (h : replaceQuestion tid oldq p now db = (.ok r, db')) :
    ∃ test ref sec newQ tailQ,
      getTestOrFail db tid = .ok test
    ∧ test.questions.find? (fun q => q.question_id == oldq) = some ref
    ∧ getSection test ref.section_id = .ok sec
    ∧ fetchQuestionsOrFail [p.new_question_id] db = .ok (newQ :: tailQ)
    ∧ buildQuestionRef sec newQ
        (if p.preserve_sequence then ref.seq else nextSeq test.questions)
        ref.marks ref.negative_marks ref.is_bonus ref.is_optional = .ok r
    ∧ ensureSequencesContiguous
        (sortBySeq (replaceFirst oldq r test.questions)) = .ok ()
    ∧ db' = db.updateTest { test with
        questions := sortBySeq (replaceFirst oldq r test.questions),
        updated_at := now } := by
  unfold replaceQuestion at h
  dsimp only at h
  split at h
  · simp at h
  rename_i test h1
  split at h
  · simp at h
  rename_i ref h2
  split at h
  · simp at h
  rename_i sec h3
  split at h
  · simp at h
  split at h
  · simp at h
  rename_i found h4
  split at h
  · simp at h
  rename_i newQ tailQ
  split at h
  · simp at h
  rename_i newRef h5
  split at h
  · simp at h
  rename_i h6
  simp only [Prod.mk.injEq, Except.ok.injEq] at h
  obtain ⟨rfl, rfl⟩ := h
  exact ⟨test, ref, sec, newQ, tailQ, h1, h2, h3, by rw [h4], h5, h6, rfl⟩

theorem bqsc_contiguous {t : Test} (h : basicQuestionSetChecks t = .ok ()) :
    contiguousSeqs t.questions := by
  unfold basicQuestionSetChecks at h
  dsimp only at h
  split at h
  · simp at h
  split at h
  · simp at h
  rename_i hseq
  by_cases he : t.questions.isEmpty
  · have hq : t.questions = [] := by simpa using he
    rw [hq]
    exact ⟨rfl, by simp [expectedSeqs]⟩
  · rw [if_neg (by simpa using he)] at hseq
    exact contiguous_of_ensure hseq

/-- The test read back right after an update carries the written question
list. -/
theorem stored_questions_eq {db : DBState} {tid : String} {test t' : Test}
    (h1 : getTestOrFail db tid = .ok test)
    (hid : t'.test_id = test.test_id) :
    ∃ u, (db.updateTest t').getTest tid = some u
      ∧ u.questions = t'.questions ∧ u.pattern = t'.pattern := by
  obtain ⟨hg, hid2⟩ := getTestOrFail_ok h1
  exact getTest_updateTest (hid.trans hid2) (by rw [hg]; rfl)

/-- Any property of the written question list holds of the read-back
stored test's question list. -/
theorem stored_fact_of_write {db : DBState} {tid : String} {test : Test}
    (t' : Test) {P : List QuestionReference → Prop}
    (h1 : getTestOrFail db tid = .ok test)
    (hid : t'.test_id = test.test_id)
    (hP : P t'.questions) :
    ∃ u, (db.updateTest t').getTest tid = some u ∧ P u.questions := by
  obtain ⟨u, hu, hq, -⟩ := stored_questions_eq h1 hid
  exact ⟨u, hu, hq ▸ hP⟩

/-- Specialisation: the read-back test inherits sequence contiguity of the
written question list. -/
theorem stored_contig_of_write {db : DBState} {tid : String} {test t' : Test}
    (h1 : getTestOrFail db tid = .ok test)
    (hid : t'.test_id = test.test_id)
    (hc : contiguousSeqs t'.questions) :
    ∃ u, (db.updateTest t').getTest tid = some u
      ∧ contiguousSeqs u.questions :=
  stored_fact_of_write t' h1 hid hc

/-! ### Claim theorems -/

/-- Claim C1: for every test whose mutating operation (create_test,
update_test, add_questions_to_test, bulk_add_questions, remove_question,
reorder_questions, replace_question) succeeds, the seq values of the
resulting stored test's question references are exactly the contiguous
set 1..N where N is the number of references: sorting the seq values
yields [1, 2, ..., N]. -/
theorem claim1_sequences_contiguous :
    (∀ data u1 u2 now db t db',
      createTest data u1 u2 now db = (.ok t, db') →
      contiguousSeqs t.questions ∧ db' = db.insertTest t)
    ∧ (∀ tid p now db t db', updateTest tid p now db = (.ok t, db') →
      ∃ u, db'.getTest tid = some u ∧ contiguousSeqs u.questions)
    ∧ (∀ tid p now db refs db',
      addQuestionsToTest tid p now db = (.ok refs, db') →
      ∃ u, db'.getTest tid = some u ∧ contiguousSeqs u.questions)
    ∧ (∀ tid p now entropy db refs db',
      bulkAddQuestions tid p now entropy db = (.ok refs, db') →
      ∃ u, db'.getTest tid = some u ∧ contiguousSeqs u.questions)
    ∧ (∀ tid qid now db db', removeQuestion tid qid now db = (.ok (), db') →
      ∃ u, db'.getTest tid = some u ∧ contiguousSeqs u.questions)
    ∧ (∀ tid p now db refs db',
      reorderQuestions tid p now db = (.ok refs, db') →
      ∃ u, db'.getTest tid = some u ∧ contiguousSeqs u.questions)
    ∧ (∀ tid oldq p now db r db',
      replaceQuestion tid oldq p now db = (.ok r, db') →
      ∃ u, db'.getTest tid = some u ∧ contiguousSeqs u.questions) := by
  refine ⟨?_, ?_, ?_, ?_, ?_, ?_, ?_⟩
  · intro data u1 u2 now db t db' h
    obtain ⟨ht, -, -, -, h4, hdb⟩ := createTest_ok_inv h
    exact ⟨bqsc_contiguous h4, hdb⟩
  · intro tid p now db t db' h
    obtain ⟨existing, h1, -, h3, ht, hdb⟩ := updateTest_ok_inv h
    subst ht hdb
    exact stored_contig_of_write h1 rfl (bqsc_contiguous h3)
  · intro tid p now db refs db' h
    obtain ⟨test, h1, h2, hdb⟩ := addQuestions_ok_inv h
    subst hdb
    exact stored_contig_of_write h1 rfl (contiguous_of_ensure h2)
  · intro tid p now entropy db refs db' h
    obtain ⟨test, h1, h2, hdb⟩ := bulkAdd_ok_inv h
    subst hdb
    exact stored_contig_of_write h1 rfl (contiguous_of_ensure h2)
  · intro tid qid now db db' h
    obtain ⟨test, h1, h2, hdb⟩ := removeQuestion_ok_inv h
    subst hdb
    exact stored_contig_of_write h1 rfl (contiguous_of_ensure h2)
  · intro tid p now db refs db' h
    obtain ⟨test, sec, qs', h1, -, -, -, h5, -, hdb⟩ :=
      reorderQuestions_ok_inv h
    subst hdb
    exact stored_contig_of_write h1 rfl (contiguous_of_ensure h5)
  · intro tid oldq p now db r db' h
    obtain ⟨test, ref, sec, newQ, tailQ, h1, -, -, -, -, h6, hdb⟩ :=
      replaceQuestion_ok_inv h
    subst hdb
    exact stored_contig_of_write h1 rfl (contiguous_of_ensure h6)

/-! ### Concrete fixtures used by witnesses and counterexamples -/

/-- A marking scheme awarding +4/−1 for MCQ. -/
def wScheme : SectionMarkingScheme := { correct := 4, incorrect := -1 }

def wSection : TestSection :=
  { section_id := "S1", section_code := "A", name := "Sec",
    subject_id := "phy", total_questions := 2,
    marking_scheme := [(QuestionType.MCQ, wScheme)] }

def wPattern : TestPattern := { total_questions := 2, sections := [wSection] }

def wTest : Test :=
  { test_id := "T1", code := "Cd1", slug := "s1", name := "Test",
    series_id := some "ser1", test_number := some 1, pattern := wPattern }

def wQ1 : StoredQuestion := { question_id := "q1", subject_id := "phy" }
def wQ2 : StoredQuestion := { question_id := "q2", subject_id := "phy" }
def wQ3 : StoredQuestion := { question_id := "q3", subject_id := "chem" }

def wDb : DBState :=
  { subjects := [{ id := "phy", slug := "phy" }],
    series := [{ series_id := "ser1" }],
    tests := [wTest], questions := [wQ1, wQ2, wQ3] }

def wAddPayload : AddQuestionsRequest :=
  { section_id := "S1", question_ids := ["q1", "q2"] }

/-- Witness for C1: a concrete successful `add_questions_to_test` whose
stored test has contiguous sequences. -/
theorem claim1_witness :
    ∃ u, (addQuestionsToTest "T1" wAddPayload 5 wDb).2.getTest "T1" = some u
      ∧ contiguousSeqs u.questions :=
  claim1_sequences_contiguous.2.2.1 "T1" wAddPayload 5 wDb _ _ rfl

/-- If any fetched question's subject differs from the section's, the
reference-building loop fails, and every error it can emit carries HTTP
status 400 (ValidationError class). -/
theorem buildRefs_mismatch_error (sec : TestSection)
    (qs : List StoredQuestion) (mo no : Option Rat) (b o : Bool) :
    ∀ seq, (∃ q ∈ qs, q.subject_id ≠ sec.subject_id) →
    ∃ d, buildRefs sec qs seq mo no b o = .error ⟨400, d⟩ := by
  induction qs with
  | nil => intro seq hq; simp at hq
  | cons q rest ih =>
    intro seq hq
    unfold buildRefs buildQuestionRef
    by_cases hqq : sec.subject_id ≠ q.subject_id
    · exact ⟨_, by rw [if_pos hqq]⟩
    · rw [if_neg hqq]
      match hscheme : sec.schemeFor q.question_type with
      | none => exact ⟨_, rfl⟩
      | some scheme =>
        have hrest : ∃ r ∈ rest, r.subject_id ≠ sec.subject_id := by
          obtain ⟨r, hr, hne⟩ := hq
          cases hr with
          | head =>
            push_neg at hqq
            exact absurd hqq.symm hne
          | tail _ htl => exact ⟨r, htl, hne⟩
        obtain ⟨d, hd⟩ := ih (seq + 1) hrest
        exact ⟨d, by rw [hd]⟩

/-- Claim C2 (amended): every mutating test operation performs all of its
checks before its single terminal write and persists nothing when a check
fails; in particular `add_questions_to_test` with a question whose subject
differs from the target section's subject fails with a 400
(ValidationError) and leaves the database unchanged.  (The claim's
further assertion that every operation validates the *complete* resulting
state is refuted by `claim2_counterexample`: `bulk_add_questions` skips
the capacity checks.) -/
theorem claim2_no_partial_persist :
    (∀ data u1 u2 now db e, (createTest data u1 u2 now db).1 = .error e →
      (createTest data u1 u2 now db).2 = db)
    ∧ (∀ tid p now db e, (updateTest tid p now db).1 = .error e →
      (updateTest tid p now db).2 = db)
    ∧ (∀ tid p now db e, (addQuestionsToTest tid p now db).1 = .error e →
      (addQuestionsToTest tid p now db).2 = db)
    ∧ (∀ tid p now entropy db e,
      (bulkAddQuestions tid p now entropy db).1 = .error e →
      (bulkAddQuestions tid p now entropy db).2 = db)
    ∧ (∀ tid qid now db e, (removeQuestion tid qid now db).1 = .error e →
      (removeQuestion tid qid now db).2 = db)
    ∧ (∀ tid p now db e, (reorderQuestions tid p now db).1 = .error e →
      (reorderQuestions tid p now db).2 = db)
    ∧ (∀ tid oldq p now db e,
      (replaceQuestion tid oldq p now db).1 = .error e →
      (replaceQuestion tid oldq p now db).2 = db)
    ∧ (∀ tid qid p now db e,
      (updateQuestionMarks tid qid p now db).1 = .error e →
      (updateQuestionMarks tid qid p now db).2 = db)
    ∧ (∀ tid p now db test sec fetched q,
      getTestOrFail db tid = .ok test →
      getSection test p.section_id = .ok sec →
      (∀ n, p.starting_seq = some n → 1 ≤ n) →
      (∀ i ∈ p.question_ids,
        ¬ (test.questions.map (·.question_id)).contains i) →
      fetchQuestionsOrFail p.question_ids db = .ok fetched →
      q ∈ fetched → q.subject_id ≠ sec.subject_id →
      ∃ e, addQuestionsToTest tid p now db = (.error e, db)
        ∧ e.status = 400) := by
  refine ⟨?_, ?_, ?_, ?_, ?_, ?_, ?_, ?_, ?_⟩
  · intro data u1 u2 now db e h
    rcases createTest_state data u1 u2 now db with hs | ⟨t, ht⟩
    · exact hs
    · simp [ht] at h
  · intro tid p now db e h
    rcases updateTest_state tid p now db with hs | ⟨t, ht⟩
    · exact hs
    · simp [ht] at h
  · intro tid p now db e h
    rcases addQuestions_state tid p now db with hs | ⟨t, ht⟩
    · exact hs
    · simp [ht] at h
  · intro tid p now entropy db e h
    rcases bulkAdd_state tid p now entropy db with hs | ⟨t, ht⟩
    · exact hs
    · simp [ht] at h
  · intro tid qid now db e h
    rcases removeQuestion_state tid qid now db with hs | ⟨t, ht⟩
    · exact hs
    · simp [ht] at h
  · intro tid p now db e h
    rcases reorderQuestions_state tid p now db with hs | ⟨t, ht⟩
    · exact hs
    · simp [ht] at h
  · intro tid oldq p now db e h
    rcases replaceQuestion_state tid oldq p now db with hs | ⟨t, ht⟩
    · exact hs
    · simp [ht] at h
  · intro tid qid p now db e h
    rcases updateMarks_state tid qid p now db with hs | ⟨t, ht⟩
    · exact hs
    · simp [ht] at h
  · intro tid p now db test sec fetched q hget hsec hseq hdup hfetch hq hne
    have hids : ¬ p.question_ids.isEmpty := by
      intro habs
      have : p.question_ids = [] := by simpa using habs
      rw [this] at hfetch
      unfold fetchQuestionsOrFail DBState.getQuestionsByIds at hfetch
      simp at hfetch
      subst hfetch
      simp at hq
    have hstart : (p.starting_seq.map (fun n => decide (n < 1))).getD false
        = false := by
      match hs : p.starting_seq with
      | none => rfl
      | some n =>
        have := hseq n hs
        simp [hs]
        omega
    have hdupempty :
        (p.question_ids.filter
          (fun i => (test.questions.map (·.question_id)).contains i)) = [] := by
      rw [List.filter_eq_nil_iff]
      intro a ha
      simpa using hdup a ha
    obtain ⟨d, hd⟩ := buildRefs_mismatch_error sec fetched p.marks
      p.negative_marks p.is_bonus p.is_optional
      (pyOrInt p.starting_seq (nextSeq test.questions)) ⟨q, hq, hne⟩
    refine ⟨⟨400, d⟩, ?_, rfl⟩
    unfold addQuestionsToTest
    simp only [hget, hsec, hstart, hfetch, hd, hdupempty]
    simp [hids]

/-- Fixtures for the C2 counterexample: a one-question-capacity section
and pattern. -/
def cxSectionSmall : TestSection :=
  { section_id := "S1", section_code := "A", name := "Sec",
    subject_id := "phy", total_questions := 1,
    marking_scheme := [(QuestionType.MCQ, wScheme)] }

def cxTestSmall : Test :=
  { test_id := "T2", code := "Cd2", slug := "s2", name := "Small",
    pattern := { total_questions := 1, sections := [cxSectionSmall] } }

def cxDbSmall : DBState :=
  { subjects := [{ id := "phy", slug := "phy" }],
    tests := [cxTestSmall], questions := [wQ1, wQ2, wQ3] }

def cxBulkPayload : BulkAddRequest :=
  { section_id := "S1", criteria := { subject_id := "phy" }, count := 2,
    strategy := "difficulty_sorted" }

/-- Counterexample to C2 as stated: `bulk_add_questions` succeeds while
the resulting stored test places 2 questions in a section of capacity 1
(and 2 questions in a test whose pattern allows 1) — an invariant-breaking
complete state was persisted because bulk add never re-checks capacity. -/
theorem claim2_counterexample :
    ((bulkAddQuestions "T2" cxBulkPayload 9 0 cxDbSmall).2.getTest "T2").map
        (fun u => countSection u.questions "S1") = some 2
    ∧ cxSectionSmall.total_questions = 1
    ∧ ((bulkAddQuestions "T2" cxBulkPayload 9 0 cxDbSmall).2.getTest
        "T2").map (fun u => u.pattern.total_questions) = some 1
    ∧ (bulkAddQuestions "T2" cxBulkPayload 9 0 cxDbSmall).2 ≠ cxDbSmall := by
  refine ⟨rfl, rfl, rfl, ?_⟩
  decide

def wMismatchPayload : AddQuestionsRequest :=
  { section_id := "S1", question_ids := ["q3"] }

/-- Witness for C2: adding a chemistry question to the physics section of
the fixture test fails with status 400 and leaves the database
untouched. -/
theorem claim2_witness :
    ∃ e, addQuestionsToTest "T1" wMismatchPayload 5 wDb = (.error e, wDb)
      ∧ e.status = 400 :=
  claim2_no_partial_persist.2.2.2.2.2.2.2.2 "T1" wMismatchPayload 5 wDb
    wTest wSection [wQ3] wQ3 rfl rfl
    (fun n hn => by cases hn)
    (by decide) rfl (by decide) (by decide)

theorem getSection_ok {t : Test} {sid : String} {sec : TestSection}
    (h : getSection t sid = .ok sec) :
    sec ∈ t.pattern.sections ∧ sec.section_id = sid := by
  unfold getSection at h
  split at h
  · cases h
  rename_i hf
  cases h
  exact ⟨List.mem_of_find?_eq_some hf, by simpa using List.find?_some hf⟩

/-- The in-place seq assignment of `reorder_questions` changes neither the
question id nor the section of a reference. -/
theorem setSeq_preserves (qid : String) (s : Int) (q : QuestionReference) :
    ((if q.question_id == qid then { q with seq := s } else q).question_id
       = q.question_id)
    ∧ ((if q.question_id == qid then { q with seq := s } else q).section_id
       = q.section_id) := by
  by_cases hc : q.question_id == qid <;> simp [hc]

/-- Inversion of the per-item reorder loop: on success every item carried
a question id resolving to a reference of the test that belongs to the
named section, with a seq ≥ 1; and the loop only reassigns seq values
(ids and sections of the final list are unchanged). -/
theorem applyReorderLoop_ok_items {sec : TestSection} :
    ∀ {items : List ReorderItem} {qs qs' : List QuestionReference},
    applyReorderLoop sec qs items = .ok qs' →
    (∀ item ∈ items, ∃ qid s,
        pyOrStr item.question_id item.id = some qid ∧ qid ≠ ""
        ∧ item.seq = some s ∧ 1 ≤ s
        ∧ ∃ r ∈ qs, r.question_id = qid ∧ r.section_id = sec.section_id)
    ∧ qs'.map (fun r => (r.question_id, r.section_id))
       = qs.map (fun r => (r.question_id, r.section_id)) := by
  intro items
  induction items with
  | nil =>
    intro qs qs' h
    unfold applyReorderLoop at h
    cases h
    exact ⟨by simp, rfl⟩
  | cons item rest ih =>
    intro qs qs' h
    unfold applyReorderLoop at h
    split at h
    · cases h
    rename_i qid hqid
    split at h
    · cases h
    rename_i hqidne
    split at h
    · cases h
    rename_i s hs
    split at h
    · cases h
    rename_i hslt
    split at h
    · cases h
    rename_i ref href
    split at h
    · cases h
    rename_i hsecref
    obtain ⟨hitems, hmap⟩ := ih h
    constructor
    · intro it hit
      cases hit with
      | head =>
        refine ⟨qid, s, hqid, hqidne, hs, by omega, ?_⟩
        have hrefmem := List.mem_of_find?_eq_some href
        have hrefid : ref.question_id = qid := by
          simpa using List.find?_some href
        push_neg at hsecref
        exact ⟨ref, hrefmem, hrefid, hsecref⟩
      | tail _ hit =>
        obtain ⟨qid', s', h1, h2, h3, h4, r, hr, hr1, hr2⟩ := hitems it hit
        obtain ⟨orig, horig, rfl⟩ := List.mem_map.mp hr
        exact ⟨qid', s', h1, h2, h3, h4, orig, horig,
          (setSeq_preserves qid s orig).1 ▸ hr1,
          (setSeq_preserves qid s orig).2 ▸ hr2⟩
    · rw [hmap, List.map_map]
      exact List.map_congr_left (fun q _ => by
        have := setSeq_preserves qid s q
        simp only [Function.comp_apply, this.1, this.2])

/-- A list whose length equals its dedup's length has no duplicates
(`len(seqs) == len(set(seqs))`). -/
theorem nodup_of_dedup_length {α : Type _} [DecidableEq α] {l : List α}
    (h : l.length = l.dedup.length) : l.Nodup := by
  have hsub : l.dedup.Sublist l := List.dedup_sublist l
  have : l.dedup = l := hsub.eq_of_length h.symm
  rw [← this]
  exact List.nodup_dedup l

/-- `question_map.get(qid)` with an `int` qid and `str` keys finds
nothing. -/
theorem find?_pyIntEqStr (n : Int) (qs : List QuestionReference) :
    qs.find? (fun q => pyIntEqStr n q.question_id) = none := by
  rw [List.find?_eq_none]
  intro r hr
  simp [pyIntEqStr]

/-- A nonempty typed reorder item list always errors: the first item
either fails the 400 checks or reaches the unconditional 404. -/
theorem applyReorderLoopTyped_cons_error (sec : TestSection)
    (qs : List QuestionReference) (item : List (String × Int))
    (rest : List (List (String × Int))) :
    ∃ e, applyReorderLoopTyped sec qs (item :: rest) = .error e := by
  unfold applyReorderLoopTyped
  dsimp only
  split
  · exact ⟨_, rfl⟩
  split
  · exact ⟨_, rfl⟩
  split
  · exact ⟨_, rfl⟩
  · rename_i ref hfind
    rw [find?_pyIntEqStr] at hfind
    cases hfind

def wRef1 : QuestionReference :=
  { seq := 1, section_id := "S1", question_id := "q1",
    question_type := .MCQ, subject_id := "phy" }

def wRef2 : QuestionReference := { wRef1 with seq := 2, question_id := "q2" }

def wRef3 : QuestionReference := { wRef1 with seq := 3, question_id := "q3" }

def wSection4 : TestSection := { wSection with total_questions := 4 }

def wTest4 : Test :=
  { wTest with
      test_id := "T4"
      code := "Cd4"
      slug := "s4"
      pattern := { total_questions := 4, sections := [wSection4] }
      questions := [wRef1, wRef2, wRef3] }

def wDb4 : DBState := { wDb with tests := [wTest4] }

/-- **C3.** The claimed reorder semantics — each listed question is
resolved by its id, must exist in the test and belong to the named
section, then the new seq values are applied and validated — is
unreachable in the program: `question_sequence` is typed
`List[Dict[str, int]]`, so submitted question ids are integers, while
`question_map` is keyed by the stored string ids; the lookup never
matches, so every well-formed item fails with
404 "Question {qid} not found in test" (items with a missing/zero id or
missing seq get the 400s first).  A reorder succeeds only when
`question_sequence` is empty, and every error leaves the database
unchanged. -/
theorem claim3_reorder_unreachable :
    (∀ tid p now db r db',
       reorderQuestionsTyped tid p now db = (.ok r, db') →
       p.question_sequence = [])
    ∧ (∀ tid p now db e,
       (reorderQuestionsTyped tid p now db).1 = .error e →
       (reorderQuestionsTyped tid p now db).2 = db)
    ∧ (∀ tid p now db test sec item rest n s,
       getTestOrFail db tid = .ok test →
       getSection test p.section_id = .ok sec →
       p.question_sequence = item :: rest →
       pyOrIntOpt (pyDictGetInt item "question_id")
           (pyDictGetInt item "id") = some n →
       n ≠ 0 →
       pyDictGetInt item "seq" = some s →
       1 ≤ s →
       reorderQuestionsTyped tid p now db
         = (.error ⟨404, "Question " ++ toString n ++ " not found in test"⟩,
            db)) := by
  refine ⟨?_, ?_, ?_⟩
  · intro tid p now db r db' h
    cases hq : p.question_sequence with
    | nil => rfl
    | cons item rest =>
      exfalso
      unfold reorderQuestionsTyped at h
      split at h
      · simp at h
      rename_i test hget
      split at h
      · simp at h
      rename_i sec hsec
      rw [hq] at h
      obtain ⟨e, he⟩ :=
        applyReorderLoopTyped_cons_error sec test.questions item rest
      rw [he] at h
      simp at h
  · intro tid p now db e h
    revert h
    unfold reorderQuestionsTyped
    dsimp only
    repeat' split
    all_goals intro h
    all_goals simp at h ⊢
  · intro tid p now db test sec item rest n s hget hsec hlist hqid hn hseq
      hs1
    have hloop : applyReorderLoopTyped sec test.questions (item :: rest)
        = .error ⟨404, "Question " ++ toString n ++ " not found in test"⟩ := by
      unfold applyReorderLoopTyped
      dsimp only
      rw [hqid, hseq]
      simp only [Option.getD_some]
      rw [if_neg (by simp [intTruthy, hn])]
      rw [if_neg (by omega)]
      rw [find?_pyIntEqStr]
    unfold reorderQuestionsTyped
    simp only [hget, hsec, hlist, hloop]

/-- A typed reorder item targeting a test that really contains
questions: `{"question_id": 3, "seq": 1}`. -/
def wReorderTyped : ReorderRequestTyped :=
  { section_id := "S1",
    question_sequence := [[("question_id", 3), ("seq", 1)]] }

/-- C3 witness: on the stored test `T4` (questions q1..q3, seqs 1..3) the
typed item `question_id=3, seq=1` fails with the unconditional 404, and
the empty reorder is the only successful shape. -/
theorem claim3_reorder_witness :
    reorderQuestionsTyped "T4" wReorderTyped 9 wDb4
      = (.error ⟨404, "Question 3 not found in test"⟩, wDb4)
    ∧ ∃ r db', reorderQuestionsTyped "T4"
        { section_id := "S1", question_sequence := [] } 9 wDb4
        = (.ok r, db') := by
  constructor
  · have h := claim3_reorder_unreachable.2.2 "T4" wReorderTyped 9 wDb4
      wTest4 wSection4 [("question_id", 3), ("seq", 1)] [] 3 1
      rfl rfl rfl rfl (by decide) rfl (by decide)
    exact h
  · exact ⟨_, _, rfl⟩

theorem buildQuestionRef_ok_inv {s : TestSection} {q : StoredQuestion}
    {seq : Int} {mo no : Option Rat} {b o : Bool} {r : QuestionReference}
    (h : buildQuestionRef s q seq mo no b o = .ok r) :
    s.subject_id = q.subject_id
    ∧ ∃ scheme, s.schemeFor q.question_type = some scheme
      ∧ r = { seq := seq, section_id := s.section_id,
              question_id := q.question_id,
              question_type := q.question_type, subject_id := q.subject_id,
              topic_ids := q.topic_ids, difficulty := q.difficulty,
              marks := some (mo.getD scheme.correct),
              negative_marks := some (no.getD scheme.incorrect),
              is_bonus := b, is_optional := o } := by
  unfold buildQuestionRef at h
  split at h
  · cases h
  rename_i hsub
  split at h
  · cases h
  rename_i scheme hscheme
  cases h
  exact ⟨not_not.mp hsub, scheme, hscheme, rfl⟩

theorem fetchQuestionsOrFail_ok {ids : List String} {db : DBState}
    {found : List StoredQuestion}
    (h : fetchQuestionsOrFail ids db = .ok found) :
    found = db.getQuestionsByIds ids
    ∧ ∀ q ∈ found, q ∈ db.questions ∧ q.question_id ∈ ids := by
  unfold fetchQuestionsOrFail at h
  dsimp only at h
  split at h
  · cases h
    refine ⟨rfl, fun q hq => ?_⟩
    unfold DBState.getQuestionsByIds at hq
    split at hq
    · cases hq
    · obtain ⟨hmem, hcont⟩ := List.mem_filter.mp hq
      exact ⟨hmem, by rw [← List.elem_iff]; simpa using hcont⟩
  · cases h

/-- Claim C4 (amended): a successful replace_question produces a
reference whose is_bonus/is_optional equal the old reference's, whose
marks (resp. negative_marks) equal the old reference's value whenever
that value is non-None and otherwise fall back to the section scheme's
correct (resp. incorrect) value for the new question's type, and whose
seq is the old seq if preserve_sequence else one past the current
maximum. -/
theorem claim4_replace_carryover :
    ∀ tid oldq p now db r db' test ref,
      replaceQuestion tid oldq p now db = (.ok r, db') →
      db.getTest tid = some test →
      test.questions.find? (fun q => q.question_id == oldq) = some ref →
      r.question_id = p.new_question_id
      ∧ r.is_bonus = ref.is_bonus
      ∧ r.is_optional = ref.is_optional
      ∧ r.seq = (if p.preserve_sequence then ref.seq
                 else nextSeq test.questions)
      ∧ (ref.marks ≠ none → r.marks = ref.marks)
      ∧ (ref.negative_marks ≠ none → r.negative_marks = ref.negative_marks)
      ∧ ∃ sec newQ scheme,
          getSection test ref.section_id = .ok sec
          ∧ newQ ∈ db.questions ∧ newQ.question_id = p.new_question_id
          ∧ sec.schemeFor newQ.question_type = some scheme
          ∧ r.marks = some (ref.marks.getD scheme.correct)
          ∧ r.negative_marks
            = some (ref.negative_marks.getD scheme.incorrect) := by
  intro tid oldq p now db r db' test ref h htest href
  obtain ⟨test0, ref0, sec, newQ, tailQ, h1, h2, h3, h4, h5, h6, hdb⟩ :=
    replaceQuestion_ok_inv h
  obtain ⟨hg, -⟩ := getTestOrFail_ok h1
  rw [htest] at hg
  injection hg with hg
  subst hg
  rw [href] at h2
  injection h2 with h2
  subst h2
  obtain ⟨hsub, scheme, hscheme, hr⟩ := buildQuestionRef_ok_inv h5
  obtain ⟨-, hmem⟩ := fetchQuestionsOrFail_ok h4
  obtain ⟨hq, hid⟩ := hmem newQ (by simp)
  subst hr
  refine ⟨by simpa using hid, rfl, rfl, rfl, ?_, ?_,
    sec, newQ, scheme, h3, hq, by simpa using hid, hscheme, rfl, rfl⟩
  · intro hne
    match hm : ref.marks with
    | none => exact absurd hm hne
    | some m => simp [hm]
  · intro hne
    match hm : ref.negative_marks with
    | none => exact absurd hm hne
    | some m => simp [hm]

def cxTest3 : Test :=
  { wTest with
      test_id := "T3"
      code := "Cd3"
      slug := "s3"
      questions := [wRef1] }

def cxDb3 : DBState := { wDb with tests := [cxTest3] }

/-- Counterexample to C4 as stated: the old reference has marks = None
and negative_marks = None (allowed by the schema and accepted by
create_test), and replace_question recomputes both from the section's
marking scheme (+4 / −1), so the replacement's marks do not equal the old
reference's. -/
theorem claim4_counterexample :
    ((replaceQuestion "T3" "q1" { new_question_id := "q2" } 9 cxDb3).1.map
        (fun r => (r.marks, r.negative_marks)))
      = .ok (some 4, some (-1))
    ∧ wRef1.marks = none ∧ wRef1.negative_marks = none := by
  refine ⟨rfl, rfl, rfl⟩

def wRefM : QuestionReference :=
  { wRef1 with marks := some 3, negative_marks := some (-2),
               is_bonus := true }

def wTest5 : Test :=
  { wTest with
      test_id := "T5"
      code := "Cd5"
      slug := "s5"
      questions := [wRefM] }

def wDb5 : DBState := { wDb with tests := [wTest5] }

/-- Witness for C4: replacing a reference that carries explicit marks
keeps them (no recomputation), along with flags and seq. -/
theorem claim4_witness :
    ∃ r db', replaceQuestion "T5" "q1" { new_question_id := "q2" } 9 wDb5
        = (.ok r, db')
      ∧ r.marks = wRefM.marks ∧ r.negative_marks = wRefM.negative_marks
      ∧ r.is_bonus = wRefM.is_bonus ∧ r.is_optional = wRefM.is_optional
      ∧ r.seq = wRefM.seq := by
  obtain ⟨h1, h2, h3, h4, h5, h6, -⟩ :=
    claim4_replace_carryover "T5" "q1" { new_question_id := "q2" } 9 wDb5
      _ _ wTest5 wRefM rfl rfl rfl
  exact ⟨_, _, rfl, h5 (by decide), h6 (by decide), h2, h3,
    by rw [h4, if_pos rfl]⟩

/-- Pattern analogue of `stored_fact_of_write`. -/
theorem stored_pattern_of_write {db : DBState} {tid : String} {test : Test}
    (t' : Test) {P : TestPattern → Prop}
    (h1 : getTestOrFail db tid = .ok test)
    (hid : t'.test_id = test.test_id)
    (hP : P t'.pattern) :
    ∃ u, (db.updateTest t').getTest tid = some u ∧ P u.pattern := by
  obtain ⟨u, hu, -, hp⟩ := stored_questions_eq h1 hid
  exact ⟨u, hu, hp ▸ hP⟩

theorem validateSections_ok_sum {pattern : TestPattern} {db : DBState}
    (h : validateSections pattern db = .ok ()) :
    pattern.total_questions
      = (pattern.sections.map (·.total_questions)).sum := by
  unfold validateSections at h
  split at h
  · cases h
  split at h
  · cases h
  rename_i hne
  exact not_not.mp hne

/-- Claim C6: for every test, the sum of section total_questions over the
pattern's sections equals pattern.total_questions after a successful
create_test or update_test; any create or update violating the equality
fails (and, when the failure is reached with all earlier checks passing,
it is the 400 ValidationError about the sum). -/
theorem claim6_section_sum :
    (∀ data u1 u2 now db t db',
      createTest data u1 u2 now db = (.ok t, db') →
      t.pattern.total_questions
        = (t.pattern.sections.map (·.total_questions)).sum)
    ∧ (∀ tid p now db t db', updateTest tid p now db = (.ok t, db') →
      ∃ u, db'.getTest tid = some u
        ∧ u.pattern.total_questions
          = (u.pattern.sections.map (·.total_questions)).sum)
    ∧ (∀ data u1 u2 now db,
      data.pattern.total_questions
        ≠ (data.pattern.sections.map (·.total_questions)).sum →
      ∃ e, (createTest data u1 u2 now db).1 = .error e)
    ∧ (∀ tid p now db pat,
      p.pattern = some pat →
      pat.total_questions ≠ (pat.sections.map (·.total_questions)).sum →
      ∃ e, (updateTest tid p now db).1 = .error e)
    ∧ (∀ data u1 u2 now db,
      ensureSeriesExists (chosenSeries data u1).1 db = .ok () →
      ensureTestUniques data.code data.slug (chosenSeries data u1).1
        (some (chosenSeries data u1).2) db = .ok () →
      validateSectionsLoop db [] data.pattern.sections = .ok () →
      data.pattern.total_questions
        ≠ (data.pattern.sections.map (·.total_questions)).sum →
      createTest data u1 u2 now db
        = (.error ⟨400,
            "pattern.total_questions must equal sum of section total_questions"⟩,
           db)) := by
  refine ⟨?_, ?_, ?_, ?_, ?_⟩
  · intro data u1 u2 now db t db' h
    obtain ⟨ht, -, -, h3, -, -⟩ := createTest_ok_inv h
    have := validateSections_ok_sum h3
    rw [ht]
    exact this
  · intro tid p now db t db' h
    obtain ⟨existing, h1, h2, -, ht, hdb⟩ := updateTest_ok_inv h
    subst ht hdb
    exact stored_pattern_of_write (P := fun pat => pat.total_questions
        = (pat.sections.map (·.total_questions)).sum)
      { applyTestPatch existing p with updated_at := now } h1 rfl
      (validateSections_ok_sum h2)
  · intro data u1 u2 now db hne
    match hr : (createTest data u1 u2 now db).1 with
    | .error e => exact ⟨e, rfl⟩
    | .ok t =>
      have hpair : createTest data u1 u2 now db
          = (.ok t, (createTest data u1 u2 now db).2) := by
        rw [← hr]
      obtain ⟨ht, -, -, h3, -, -⟩ := createTest_ok_inv hpair
      exact absurd (validateSections_ok_sum h3) hne
  · intro tid p now db pat hpat hne
    match hr : (updateTest tid p now db).1 with
    | .error e => exact ⟨e, rfl⟩
    | .ok t =>
      have hpair : updateTest tid p now db
          = (.ok t, (updateTest tid p now db).2) := by
        rw [← hr]
      obtain ⟨existing, -, h2, -, -, -⟩ := updateTest_ok_inv hpair
      have : (applyTestPatch existing p).pattern = pat := by
        unfold applyTestPatch
        simp [hpat]
      rw [this] at h2
      exact absurd (validateSections_ok_sum h2) hne
  · intro data u1 u2 now db h1 h2 hloop hne
    unfold createTest
    simp only [h1, h2]
    unfold validateSections
    simp only [hloop]
    rw [if_pos hne]

def wCreateOk : TestCreate :=
  { code := "C6", slug := "s6", name := "N", series_id := some "ser1",
    test_number := some 7, pattern := wPattern }

/-- A pattern whose declared total (3) differs from the section sum (2). -/
def wBadPattern : TestPattern :=
  { total_questions := 3, sections := [wSection] }

def wCreateBad : TestCreate :=
  { wCreateOk with
      code := "C6b"
      slug := "s6b"
      pattern := wBadPattern }

/-- Witness for C6: a concrete successful create whose stored pattern
satisfies the sum equality, and a concrete sum-violating create that is
rejected with the specific 400 detail. -/
theorem claim6_witness :
    (∃ t db', createTest wCreateOk "u1" "u2" 3 wDb = (.ok t, db')
      ∧ t.pattern.total_questions
        = (t.pattern.sections.map (·.total_questions)).sum)
    ∧ createTest wCreateBad "u1" "u2" 3 wDb
      = (.error ⟨400,
          "pattern.total_questions must equal sum of section total_questions"⟩,
         wDb) := by
  constructor
  · refine ⟨_, _, rfl, ?_⟩
    exact claim6_section_sum.1 wCreateOk "u1" "u2" 3 wDb _ _ rfl
  · exact claim6_section_sum.2.2.2.2 wCreateBad "u1" "u2" 3 wDb
      rfl rfl rfl (by decide)

/-- Claim C9 (amended): create_test accepts an explicit (truthy)
series_id, validated to exist unless it starts with "standalone_", with
test_number defaulting to 0 when not supplied; when no series_id is
supplied it auto-generates a standalone series id and test_number
defaults to 1 when not supplied (a supplied test_number is kept in both
cases). -/
theorem claim9_series_assignment :
    (∀ data u1 u2 now db t db',
      createTest data u1 u2 now db = (.ok t, db') →
      (strTruthy data.series_id = true →
        t.series_id = data.series_id
        ∧ t.test_number = some (data.test_number.getD 0))
      ∧ (strTruthy data.series_id = false →
        t.series_id = some ("standalone_" ++ u1)
        ∧ t.test_number = some (data.test_number.getD 1)))
    ∧ (∀ data u1 u2 now db sid,
      data.series_id = some sid → sid ≠ "" →
      strStartsWith sid "standalone_" = false →
      db.getSeries sid = none →
      createTest data u1 u2 now db
        = (.error ⟨404, "Test series not found"⟩, db)) := by
  constructor
  · intro data u1 u2 now db t db' h
    obtain ⟨ht, -, -, -, -, -⟩ := createTest_ok_inv h
    subst ht
    constructor
    · intro htruthy
      unfold chosenSeries builtTest
      simp [htruthy]
    · intro hfalsy
      unfold chosenSeries builtTest
      simp [hfalsy]
  · intro data u1 u2 now db sid hsid hne hsa hmiss
    have htruthy : strTruthy data.series_id = true := by
      unfold strTruthy
      rw [hsid]
      simpa using hne
    unfold createTest
    have hchosen : (chosenSeries data u1).1 = some sid := by
      unfold chosenSeries
      simp [hsid, strTruthy, hne]
    rw [hchosen]
    unfold ensureSeriesExists
    dsimp only
    simp [hsa, hmiss]

def wCreate9 : TestCreate :=
  { code := "C9", slug := "s9", name := "N", series_id := some "ser1",
    pattern := wPattern }

def wCreate10 : TestCreate :=
  { code := "C10", slug := "s10", name := "N", test_number := some 5,
    pattern := wPattern }

/-- Counterexample to C9 as stated: an explicit series_id with no
test_number is accepted (test_number defaults to 0, so a test_number is
not required), and with no series_id a supplied test_number 5 is kept
(not set to 1). -/
theorem claim9_counterexample :
    ((createTest wCreate9 "u1" "u2" 3 wDb).1.toOption.map
        (fun t => (t.series_id, t.test_number)))
      = some (some "ser1", some 0)
    ∧ ((createTest wCreate10 "u1" "u2" 3 wDb).1.toOption.map
        (fun t => (t.series_id, t.test_number)))
      = some (some ("standalone_" ++ "u1"), some 5) := by
  constructor
  · decide
  · decide

def wCreate9c : TestCreate :=
  { wCreate9 with
      code := "C9c"
      slug := "s9c"
      series_id := some "serX" }

/-- Witness for C9: the amended assignment rule applied to the two
concrete creates, plus the 404 on a missing explicit series. -/
theorem claim9_witness :
    (∃ t db', createTest wCreate9 "u1" "u2" 3 wDb = (.ok t, db')
      ∧ t.series_id = some "ser1" ∧ t.test_number = some 0)
    ∧ createTest wCreate9c "u1" "u2" 3 wDb
      = (.error ⟨404, "Test series not found"⟩, wDb) := by
  constructor
  · refine ⟨_, _, rfl, ?_⟩
    have h := (claim9_series_assignment.1 wCreate9 "u1" "u2" 3 wDb _ _
      rfl).1 (by decide)
    exact ⟨h.1, h.2⟩
  · exact claim9_series_assignment.2 wCreate9c "u1" "u2" 3 wDb "serX" rfl
      (by decide) (by decide) rfl

/-! ### `create_topic` claim -/

theorem validateTopicRefs_ok {subj : String} {db : DBState} :
    ∀ {ids : List String}, validateTopicRefs subj db ids = .ok () →
    ∀ rid ∈ ids, ∃ rt, db.getTopic rid = some rt ∧ rt.subject_id = subj := by
  intro ids
  induction ids with
  | nil => intro h rid hr; simp at hr
  | cons a rest ih =>
    intro h rid hr
    unfold validateTopicRefs at h
    split at h
    · cases h
    rename_i rt hrt
    split at h
    · cases h
    rename_i hsub
    cases hr with
    | head => exact ⟨rt, hrt, not_not.mp hsub⟩
    | tail _ htl => exact ih h rid htl

/-- All references resolving within the same subject pass
`_validate_topic_references`. -/
theorem validateTopicRefs_ok_of {subj : String} {db : DBState} :
    ∀ {ids : List String},
    (∀ rid ∈ ids, ∃ rt, db.getTopic rid = some rt
      ∧ rt.subject_id = subj) →
    validateTopicRefs subj db ids = .ok () := by
  intro ids
  induction ids with
  | nil => intro _; rfl
  | cons a rest ih =>
    intro h
    obtain ⟨rt, hrt, hsub⟩ := h a (by simp)
    unfold validateTopicRefs
    simp only [hrt]
    rw [if_neg (by simp [hsub])]
    exact ih (fun rid hr => h rid (by simp [hr]))

/-- If every reference resolves and some resolves to a topic of another
subject, `_validate_topic_references` fails with the 400
`does not belong to subject` error (at some listed id). -/
theorem validateTopicRefs_400 {subj : String} {db : DBState} :
    ∀ {ids : List String},
    (∀ rid ∈ ids, ∃ rt, db.getTopic rid = some rt) →
    (∃ rid ∈ ids, ∃ rt, db.getTopic rid = some rt
      ∧ rt.subject_id ≠ subj) →
    ∃ rid ∈ ids, validateTopicRefs subj db ids
      = .error ⟨400, "Topic " ++ rid ++ " does not belong to subject "
                     ++ subj⟩ := by
  intro ids
  induction ids with
  | nil => intro _ hbad; simp at hbad
  | cons a rest ih =>
    intro hres hbad
    obtain ⟨rta, hrta⟩ := hres a (by simp)
    by_cases hasub : rta.subject_id = subj
    · have hbadr : ∃ rid ∈ rest, ∃ rt, db.getTopic rid = some rt
          ∧ rt.subject_id ≠ subj := by
        obtain ⟨rid, hmem, rt, hrt, hne⟩ := hbad
        cases List.mem_cons.mp hmem with
        | inl he =>
          subst he
          rw [hrta] at hrt
          injection hrt with hrt
          subst hrt
          exact absurd hasub hne
        | inr hm => exact ⟨rid, hm, rt, hrt, hne⟩
      obtain ⟨rid, hmem, heq⟩ :=
        ih (fun r hr => hres r (by simp [hr])) hbadr
      refine ⟨rid, by simp [hmem], ?_⟩
      unfold validateTopicRefs
      simp only [hrta]
      rw [if_neg (by simp [hasub])]
      exact heq
    · refine ⟨a, by simp, ?_⟩
      unfold validateTopicRefs
      simp only [hrta]
      rw [if_pos hasub]

/-- Claim C8 (amended): create_topic fails with NotFoundError (404) if
the subject does not exist; a missing related/prerequisite topic id also
yields NotFoundError 404 (the claim said ValidationError there — see
`claim8_counterexample`) while a reference that resolves to a topic of
another subject yields ValidationError 400 (last conjunct); on success
every relationship id references an existing topic of the same subject,
and errors persist nothing. -/
theorem claim8_topic_references :
    (∀ tc g now db t db', createTopic tc g now db = (.ok t, db') →
      t.subject_id = tc.subject_id
      ∧ (∀ rid ∈ t.related_topic_ids ++ t.prerequisite_topic_ids,
          ∃ rt, db.getTopic rid = some rt ∧ rt.subject_id = t.subject_id)
      ∧ db' = db.insertTopic t)
    ∧ (∀ tc g now db, db.getSubject tc.subject_id = none →
      createTopic tc g now db = (.error ⟨404, "Subject not found"⟩, db))
    ∧ (∀ tc g now db e, (createTopic tc g now db).1 = .error e →
      (createTopic tc g now db).2 = db)
    ∧ (∀ tc g now db,
      (∃ s, db.getSubject tc.subject_id = some s) →
      db.getTopic ((pyOrStr tc.id (some ("topic_" ++ g))).getD "") = none →
      db.getTopicBySlug tc.subject_id tc.slug = none →
      (∀ rid ∈ tc.related_topic_ids ++ tc.prerequisite_topic_ids,
          ∃ rt, db.getTopic rid = some rt) →
      (∃ rid ∈ tc.related_topic_ids ++ tc.prerequisite_topic_ids,
          ∃ rt, db.getTopic rid = some rt
            ∧ rt.subject_id ≠ tc.subject_id) →
      ∃ rid ∈ tc.related_topic_ids ++ tc.prerequisite_topic_ids,
        createTopic tc g now db
          = (.error ⟨400, "Topic " ++ rid ++ " does not belong to subject "
                          ++ tc.subject_id⟩, db)) := by
  refine ⟨?_, ?_, ?_, ?_⟩
  · intro tc g now db t db' h
    unfold createTopic at h
    dsimp only at h
    split at h
    · simp at h
    split at h
    · simp at h
    split at h
    · simp at h
    split at h
    · simp at h
    rename_i hrel
    split at h
    · simp at h
    rename_i hpre
    simp only [Prod.mk.injEq, Except.ok.injEq] at h
    obtain ⟨rfl, rfl⟩ := h
    refine ⟨rfl, ?_, rfl⟩
    intro rid hr
    rcases List.mem_append.mp hr with hr | hr
    · exact validateTopicRefs_ok hrel rid hr
    · exact validateTopicRefs_ok hpre rid hr
  · intro tc g now db hmiss
    unfold createTopic
    rw [hmiss]
  · intro tc g now db e h
    revert h
    unfold createTopic
    dsimp only
    repeat' split
    all_goals intro h
    all_goals simp at h ⊢
  · intro tc g now db hsub hid hslug hres hbad
    obtain ⟨s, hs⟩ := hsub
    have hresR : ∀ rid ∈ tc.related_topic_ids,
        ∃ rt, db.getTopic rid = some rt :=
      fun rid hr => hres rid (List.mem_append_left _ hr)
    have hresP : ∀ rid ∈ tc.prerequisite_topic_ids,
        ∃ rt, db.getTopic rid = some rt :=
      fun rid hr => hres rid (List.mem_append_right _ hr)
    by_cases hrel : ∃ rid ∈ tc.related_topic_ids, ∃ rt,
        db.getTopic rid = some rt ∧ rt.subject_id ≠ tc.subject_id
    · obtain ⟨rid, hmem, heq⟩ := validateTopicRefs_400 hresR hrel
      refine ⟨rid, List.mem_append_left _ hmem, ?_⟩
      unfold createTopic
      dsimp only
      simp only [hs, hid, hslug, heq]
    · have hallR : ∀ rid ∈ tc.related_topic_ids, ∃ rt,
          db.getTopic rid = some rt ∧ rt.subject_id = tc.subject_id := by
        intro rid hr
        obtain ⟨rt, hrt⟩ := hresR rid hr
        refine ⟨rt, hrt, ?_⟩
        by_contra hne
        exact hrel ⟨rid, hr, rt, hrt, hne⟩
      have hok := validateTopicRefs_ok_of hallR
      have hbadP : ∃ rid ∈ tc.prerequisite_topic_ids, ∃ rt,
          db.getTopic rid = some rt ∧ rt.subject_id ≠ tc.subject_id := by
        obtain ⟨rid, hmem, rt, hrt, hne⟩ := hbad
        rcases List.mem_append.mp hmem with hm | hm
        · exact absurd ⟨rid, hm, rt, hrt, hne⟩ hrel
        · exact ⟨rid, hm, rt, hrt, hne⟩
      obtain ⟨rid, hmem, heq⟩ := validateTopicRefs_400 hresP hbadP
      refine ⟨rid, List.mem_append_right _ hmem, ?_⟩
      unfold createTopic
      dsimp only
      simp only [hs, hid, hslug, hok, heq]

def cxTopicPayload : TopicCreate :=
  { subject_id := "phy", slug := "tp", related_topic_ids := ["nope"] }

/-- Counterexample to C8 as stated: a missing related topic id is
rejected with HTTP 404 (NotFoundError), not with the claimed
ValidationError (400). -/
theorem claim8_counterexample :
    createTopic cxTopicPayload "u" 1 wDb
      = (.error ⟨404, "Referenced topic nope not found"⟩, wDb)
    ∧ (404 : Nat) ≠ 400 :=
  ⟨rfl, by decide⟩

def wDbT : DBState :=
  { wDb with topics := [{ id := "tp1", subject_id := "phy", slug := "t1" },
                        { id := "tpC", subject_id := "chem",
                          slug := "tc" }] }

def wTopicOk : TopicCreate :=
  { subject_id := "phy", slug := "t2", related_topic_ids := ["tp1"] }

/-- A topic creation whose related reference resolves to a topic of
another subject. -/
def wTopicBad : TopicCreate :=
  { subject_id := "phy", slug := "t3", related_topic_ids := ["tpC"] }

/-- Witness for C8: a concrete successful create_topic whose relationship
ids all resolve to same-subject topics, the 404 on a missing subject, and
the 400 on a reference to a topic of another subject. -/
theorem claim8_witness :
    (∃ t db', createTopic wTopicOk "u9" 1 wDbT = (.ok t, db')
      ∧ t.subject_id = wTopicOk.subject_id
      ∧ ∀ rid ∈ t.related_topic_ids ++ t.prerequisite_topic_ids,
          ∃ rt, wDbT.getTopic rid = some rt ∧ rt.subject_id = t.subject_id)
    ∧ createTopic { wTopicOk with subject_id := "nosub" } "u9" 1 wDbT
      = (.error ⟨404, "Subject not found"⟩, wDbT)
    ∧ createTopic wTopicBad "u9" 1 wDbT
      = (.error ⟨400, "Topic tpC does not belong to subject phy"⟩,
         wDbT) := by
  refine ⟨?_, ?_, ?_⟩
  · obtain ⟨h1, h2, -⟩ :=
      claim8_topic_references.1 wTopicOk "u9" 1 wDbT _ _ rfl
    exact ⟨_, _, rfl, h1, h2⟩
  · exact claim8_topic_references.2.1 _ "u9" 1 wDbT rfl
  · obtain ⟨rid, hmem, heq⟩ :=
      claim8_topic_references.2.2.2 wTopicBad "u9" 1 wDbT ⟨_, rfl⟩ rfl rfl
        (by
          intro rid hr
          simp [wTopicBad] at hr
          subst hr
          exact ⟨_, rfl⟩)
        ⟨"tpC", by simp [wTopicBad], _, rfl, by decide⟩
    simp [wTopicBad] at hmem
    subst hmem
    exact heq

/-! ### `app/schemas/question_doc.py` + `app/services/question_service.py`

The v2 question-document model.  Documents are stored by
`QuestionRepo` (Mongo collection of dicts); the typed structures below
mirror the document shape `create_question` persists.  Dict-level
operations (`_merge_nested`, projections) are rendered field by field:
the set of keys is fixed by the pydantic schemas, and for dict-valued
fields (`answer_key`, `solution`, `taxonomy`, `usage`, `meta`) the
one-level `{**old, **patch}` merge of `_merge_nested` becomes a
per-subfield merge. -/

inductive QuestionDocType where
  | single_choice
  | multi_choice
  | integer
  | short_text
  | true_false
deriving DecidableEq, Repr

inductive AnswerKeyType where
  | single
  | multi
  | value
deriving DecidableEq, Repr

structure OptionDoc where
  id : String
  text : String
deriving DecidableEq, Repr

structure AnswerKey where
  type : AnswerKeyType
  option_id : Option String := none
  option_ids : Option (List String) := none
  value : Option String := none
deriving DecidableEq, Repr

structure SolutionDoc where
  explanation : Option String := none
  steps : List String := []
  references : List String := []
deriving DecidableEq, Repr

structure TaxonomyDoc where
  subject_id : Option String := none
  topic_ids : List String := []
  target_exam_ids : List String := []
deriving DecidableEq, Repr

inductive UsageStatus where
  | draft
  | published
deriving DecidableEq, Repr

/-- `Visibility` (`public`/`private` are Lean keywords, hence the V
suffix). -/
inductive Visibility where
  | publicV
  | privateV
deriving DecidableEq, Repr

structure UsageDoc where
  status : UsageStatus := .draft
  is_active : Bool := true
  visibility : Visibility := .publicV
deriving DecidableEq, Repr

structure MetaDoc where
  estimated_time_sec : Option Int := none
  source : Option String := none
  created_by : Option String := none
deriving DecidableEq, Repr

/-- A persisted v2 question document (the dict `create_question`
inserts).  `id` is the Mongo `_id` (equal to `question_id`). -/
structure QuestionDoc where
  id : String
  question_id : String
  text : String
  type : QuestionDocType
  options : List OptionDoc
  answer_key : AnswerKey
  solution : Option SolutionDoc := none
  taxonomy : TaxonomyDoc
  difficulty : Int
  tags : List String := []
  language : String := "en"
  usage : UsageDoc := {}
  meta : MetaDoc := {}
  version : Int
  search_blob : String
  created_at : Int
  updated_at : Int
  rand_key : Rat
  schema_version : Int := 2
deriving DecidableEq, Repr

/-- `QuestionDocCreate`. -/
structure QuestionDocCreate where
  text : String
  type : QuestionDocType
  options : List OptionDoc := []
  answer_key : AnswerKey
  solution : Option SolutionDoc := none
  taxonomy : TaxonomyDoc
  difficulty : Int
  tags : List String := []
  language : String := "en"
  usage : UsageDoc := {}
  meta : MetaDoc := {}
deriving DecidableEq, Repr

/-- Python truthiness of `Optional[str]` values inside the validators
(`if not answer_key.option_id`). -/
def optStrFalsy : Option String → Bool
  | none => true
  | some s => s == ""

/-- `str.split()` with no argument: split on whitespace runs, dropping
empty pieces. -/
def strWords (cs : List Char) (acc : List Char := []) : List String :=
  match cs with
  | [] => if acc.isEmpty then [] else [⟨acc.reverse⟩]
  | c :: rest =>
    if c.isWhitespace then
      if acc.isEmpty then strWords rest []
      else ⟨acc.reverse⟩ :: strWords rest []
    else strWords rest (c :: acc)

/-- `str.lower()` character by character. -/
def strToLower (s : String) : String := ⟨s.data.map Char.toLower⟩

/-- `_build_search_blob`: lower-cased, whitespace-collapsed concatenation
of text, option texts, tags, and taxonomy ids
(`" ".join(blob.lower().split())`). -/
def buildSearchBlob (text : String) (options : List OptionDoc)
    (tags : List String) (tax : TaxonomyDoc) : String :=
  let parts := [text] ++ options.map (·.text) ++ tags
    ++ [(tax.subject_id.getD "")] ++ tax.topic_ids ++ tax.target_exam_ids
  let blob := String.intercalate " " parts
  String.intercalate " " (strWords (strToLower blob).data)

/-- `_normalize_options`: reject duplicate option ids, rebuild each
option as its id/text pair. -/
def normalizeOptions (opts : List OptionDoc) (seen : List String := []) :
    Except HErr (List OptionDoc) :=
  match opts with
  | [] => .ok []
  | o :: rest =>
    if seen.contains o.id then
      .error ⟨400, "option ids must be unique"⟩
    else
      match normalizeOptions rest (o.id :: seen) with
      | .error e => .error e
      | .ok r => .ok ({ id := o.id, text := o.text } :: r)

/-- `_validate_answer_key`. -/
def validateAnswerKey (qtype : QuestionDocType) (ak : AnswerKey)
    (options : List OptionDoc) : Except HErr Unit :=
  let optIds := options.map (·.id)
  match
    (if qtype = .single_choice ∨ qtype = .true_false then
      if qtype = .single_choice ∧ options.isEmpty then
        .error ⟨400, "options are required for single_choice"⟩
      else if ak.type ≠ .single then
        .error ⟨400, "single_choice requires answer_key.type=single"⟩
      else if optStrFalsy ak.option_id then
        .error ⟨400, "answer_key.option_id is required"⟩
      else if ¬ optIds.isEmpty
          ∧ ¬ (ak.option_id.map optIds.contains).getD false then
        .error ⟨400, "answer_key.option_id must match an option id"⟩
      else .ok ()
    else .ok () : Except HErr Unit) with
  | .error e => .error e
  | .ok () =>
  match
    (if qtype = .multi_choice then
      if options.isEmpty then
        .error ⟨400, "options are required for multi_choice"⟩
      else if ak.type ≠ .multi then
        .error ⟨400, "multi_choice requires answer_key.type=multi"⟩
      else if (ak.option_ids.map List.isEmpty).getD true then
        .error ⟨400, "answer_key.option_ids is required"⟩
      else if ¬ ((ak.option_ids.getD []).filter
          (fun i => ¬ optIds.contains i)).isEmpty then
        .error ⟨400, "answer_key.option_ids missing in options"⟩
      else .ok ()
    else .ok () : Except HErr Unit) with
  | .error e => .error e
  | .ok () =>
    if qtype = .integer ∨ qtype = .short_text then
      if ak.type ≠ .value then
        .error ⟨400, "value questions require answer_key.type=value"⟩
      else if optStrFalsy ak.value then
        .error ⟨400, "answer_key.value is required"⟩
      else if ¬ options.isEmpty then
        .error ⟨400, "options must be empty for value questions"⟩
      else .ok ()
    else .ok ()

/-- `_validate_taxonomy_for_published`. -/
def validateTaxonomyForPublished (tax : TaxonomyDoc)
    (status : UsageStatus) : Except HErr Unit :=
  if status = .published ∧ optStrFalsy tax.subject_id then
    .error ⟨400, "subject_id is required for published questions"⟩
  else .ok ()

/-- `create_question`: validate, then insert the document with id,
version 1, search blob, timestamps, random ranking key and
schema_version 2. -/
def createQuestion (data : QuestionDocCreate) (uuid : String) (now : Int)
    (randKey : Rat) (repo : List QuestionDoc) :
    Except HErr QuestionDoc × List QuestionDoc :=
  match normalizeOptions data.options with
  | .error e => (.error e, repo)
  | .ok opts =>
  match validateAnswerKey data.type data.answer_key opts with
  | .error e => (.error e, repo)
  | .ok () =>
  match validateTaxonomyForPublished data.taxonomy data.usage.status with
  | .error e => (.error e, repo)
  | .ok () =>
    let doc : QuestionDoc :=
      { id := "q_" ++ uuid
        question_id := "q_" ++ uuid
        text := data.text
        type := data.type
        options := opts
        answer_key := data.answer_key
        solution := data.solution
        taxonomy := data.taxonomy
        difficulty := data.difficulty
        tags := data.tags
        language := data.language
        usage := data.usage
        meta := data.meta
        version := 1
        search_blob := buildSearchBlob data.text opts data.tags data.taxonomy
        created_at := now
        updated_at := now
        rand_key := randKey
        schema_version := 2 }
    (.ok doc, repo ++ [doc])

/-! ### `update_question` — exclude_unset + exclude_none patch dump and
deep merge

`patch.model_dump(exclude_unset=True, exclude_none=True)` keeps a key iff
the field was explicitly supplied with a non-null value; that holds
recursively inside nested models.  A field of the structures below is
therefore `none` exactly when it is absent from `update_data`. -/

structure AKPatch where
  type : AnswerKeyType
  option_id : Option String := none
  option_ids : Option (List String) := none
  value : Option String := none
deriving DecidableEq, Repr

structure SolPatch where
  explanation : Option String := none
  steps : Option (List String) := none
  references : Option (List String) := none
deriving DecidableEq, Repr

structure TaxPatch where
  subject_id : Option String := none
  topic_ids : Option (List String) := none
  target_exam_ids : Option (List String) := none
deriving DecidableEq, Repr

structure UsagePatch where
  status : Option UsageStatus := none
  is_active : Option Bool := none
  visibility : Option Visibility := none
deriving DecidableEq, Repr

structure MetaPatch where
  estimated_time_sec : Option Int := none
  source : Option String := none
  created_by : Option String := none
deriving DecidableEq, Repr

/-- `QuestionDocUpdate` after the exclude_unset/exclude_none dump. -/
structure QuestionDocUpdate where
  text : Option String := none
  type : Option QuestionDocType := none
  options : Option (List OptionDoc) := none
  answer_key : Option AKPatch := none
  solution : Option SolPatch := none
  taxonomy : Option TaxPatch := none
  difficulty : Option Int := none
  tags : Option (List String) := none
  language : Option String := none
  usage : Option UsagePatch := none
  meta : Option MetaPatch := none
deriving DecidableEq, Repr

/-- A patch subfield overriding an optional stored field
(`{**old, **patch}` at one key). -/
def patchField (p old : Option α) : Option α :=
  match p with
  | some v => some v
  | none => old

def mergeAK (old : AnswerKey) (p : AKPatch) : AnswerKey :=
  { type := p.type
    option_id := patchField p.option_id old.option_id
    option_ids := patchField p.option_ids old.option_ids
    value := patchField p.value old.value }

/-- `_merge_nested` at the `solution` key: a dict-valued stored solution
is shallow-merged; a null stored solution is replaced by the patch dict
(missing keys read back through the model defaults). -/
def mergeSolution (old : Option SolutionDoc) (p : SolPatch) :
    Option SolutionDoc :=
  match old with
  | some o => some
      { explanation := patchField p.explanation o.explanation
        steps := p.steps.getD o.steps
        references := p.references.getD o.references }
  | none => some
      { explanation := p.explanation
        steps := p.steps.getD []
        references := p.references.getD [] }

def mergeTaxonomy (old : TaxonomyDoc) (p : TaxPatch) : TaxonomyDoc :=
  { subject_id := patchField p.subject_id old.subject_id
    topic_ids := p.topic_ids.getD old.topic_ids
    target_exam_ids := p.target_exam_ids.getD old.target_exam_ids }

def mergeUsage (old : UsageDoc) (p : UsagePatch) : UsageDoc :=
  { status := p.status.getD old.status
    is_active := p.is_active.getD old.is_active
    visibility := p.visibility.getD old.visibility }

def mergeMeta (old : MetaDoc) (p : MetaPatch) : MetaDoc :=
  { estimated_time_sec := patchField p.estimated_time_sec
      old.estimated_time_sec
    source := patchField p.source old.source
    created_by := patchField p.created_by old.created_by }

/-- `_merge_nested(existing, update_data)`: scalar/list keys replace
wholesale, dict keys merge one level. -/
def mergeDoc (old : QuestionDoc) (p : QuestionDocUpdate) : QuestionDoc :=
  { old with
    text := p.text.getD old.text
    type := p.type.getD old.type
    options := p.options.getD old.options
    answer_key := match p.answer_key with
      | some ap => mergeAK old.answer_key ap
      | none => old.answer_key
    solution := match p.solution with
      | some sp => mergeSolution old.solution sp
      | none => old.solution
    taxonomy := match p.taxonomy with
      | some tp => mergeTaxonomy old.taxonomy tp
      | none => old.taxonomy
    difficulty := p.difficulty.getD old.difficulty
    tags := p.tags.getD old.tags
    language := p.language.getD old.language
    usage := match p.usage with
      | some up => mergeUsage old.usage up
      | none => old.usage
    meta := match p.meta with
      | some mp => mergeMeta old.meta mp
      | none => old.meta }

/-- `update_question`: merge, re-normalize options, re-validate answer
key and publish rule on the merged document, recompute the search blob
only when text/options/tags/taxonomy appear in the patch, bump
updated_at, increment version, `$set` everything except `_id`. -/
def updateQuestion (qid : String) (p : QuestionDocUpdate) (now : Int)
    (repo : List QuestionDoc) : Except HErr QuestionDoc × List QuestionDoc :=
  match repo.find? (fun d => d.id == qid) with
  | none => (.error ⟨404, "Question not found"⟩, repo)
  | some existing =>
    let merged0 := mergeDoc existing p
    match normalizeOptions merged0.options with
    | .error e => (.error e, repo)
    | .ok opts =>
      let merged1 := { merged0 with options := opts }
      match validateAnswerKey merged1.type merged1.answer_key
          merged1.options with
      | .error e => (.error e, repo)
      | .ok () =>
      match validateTaxonomyForPublished merged1.taxonomy
          merged1.usage.status with
      | .error e => (.error e, repo)
      | .ok () =>
        let recompute := p.text.isSome || p.options.isSome
          || p.tags.isSome || p.taxonomy.isSome
        let final := { merged1 with
          updated_at := now
          version := existing.version + 1
          search_blob := if recompute then
              buildSearchBlob merged1.text merged1.options merged1.tags
                merged1.taxonomy
            else merged1.search_blob }
        (.ok final,
         repo.map (fun d => if d.id == qid then { final with id := d.id }
                            else d))

/-- Successful `_normalize_options` rebuilds the very same id/text
pairs. -/
theorem normalizeOptions_ok_eq (l : List OptionDoc) (seen : List String)
    (r : List OptionDoc) (h : normalizeOptions l seen = .ok r) : r = l := by
  induction l generalizing seen r with
  | nil =>
    simp only [normalizeOptions, Except.ok.injEq] at h
    exact h.symm
  | cons o rest ih =>
    unfold normalizeOptions at h
    split at h
    · simp at h
    · split at h
      · simp at h
      · rename_i r' heq'
        simp only [Except.ok.injEq] at h
        subst h
        rw [ih _ _ heq']

/-- A one-level dict merge never clears a present key. -/
theorem patchField_isSome (p o : Option α) (h : o.isSome) :
    (patchField p o).isSome := by
  cases p with
  | none => simpa [patchField] using h
  | some v => simp [patchField]

/-- `_merge_nested` at `solution` always leaves a dict in place. -/
theorem mergeSolution_isSome (o : Option SolutionDoc) (sp : SolPatch) :
    (mergeSolution o sp).isSome := by
  cases o <;> simp [mergeSolution]

/-! ### `get_question` — projections and the pydantic v2 dump

`get_question` builds an exclusion projection (always `search_blob` and
`rand_key`, plus `solution` and/or `answer_key` when the corresponding
flag is off), reads the doc, wraps it in
`QuestionFullView`/`QuestionPreviewView`/`QuestionPublicView` and the
HTTP layer serialises the result with `model_dump`.

The view classes try to exclude fields with a pydantic-v1
`ConfigDict(fields={...: {"exclude": True}})` marker.  The code targets
pydantic v2 (`ConfigDict`, `model_validator(mode="after")`,
`model_dump`), and v2 removed the `fields` config key: the marker only
triggers a UserWarning at class creation and is otherwise inert.  The
serialised output therefore contains every declared field of
`QuestionDocResponse`; keys that the Mongo projection removed resurface
with value null through the view's Optional defaults.  `jsonDump` below
models exactly that. -/

inductive JVal where
  | null
  | jstr (s : String)
  | jnum (q : Rat)
  | jbool (b : Bool)
  | jarr (xs : List JVal)
  | jobj (kvs : List (String × JVal))

def jOptStr : Option String → JVal
  | none => .null
  | some s => .jstr s

def renderOptionDoc (o : OptionDoc) : JVal :=
  .jobj [("id", .jstr o.id), ("text", .jstr o.text)]

def renderAKType : AnswerKeyType → String
  | .single => "single"
  | .multi => "multi"
  | .value => "value"

def renderAK (ak : AnswerKey) : JVal :=
  .jobj [("type", .jstr (renderAKType ak.type)),
         ("option_id", jOptStr ak.option_id),
         ("option_ids", match ak.option_ids with
           | none => .null
           | some l => .jarr (l.map .jstr)),
         ("value", jOptStr ak.value)]

def renderSolution : Option SolutionDoc → JVal
  | none => .null
  | some s => .jobj [("explanation", jOptStr s.explanation),
                     ("steps", .jarr (s.steps.map .jstr)),
                     ("references", .jarr (s.references.map .jstr))]

def renderTaxonomy (t : TaxonomyDoc) : JVal :=
  .jobj [("subject_id", jOptStr t.subject_id),
         ("topic_ids", .jarr (t.topic_ids.map .jstr)),
         ("target_exam_ids", .jarr (t.target_exam_ids.map .jstr))]

def renderQDocType : QuestionDocType → String
  | .single_choice => "single_choice"
  | .multi_choice => "multi_choice"
  | .integer => "integer"
  | .short_text => "short_text"
  | .true_false => "true_false"

def renderUsage (u : UsageDoc) : JVal :=
  .jobj [("status", .jstr (match u.status with
            | .draft => "draft"
            | .published => "published")),
         ("is_active", .jbool u.is_active),
         ("visibility", .jstr (match u.visibility with
            | .publicV => "public"
            | .privateV => "private"))]

def renderMeta (m : MetaDoc) : JVal :=
  .jobj [("estimated_time_sec", match m.estimated_time_sec with
            | none => .null
            | some n => .jnum n),
         ("source", jOptStr m.source),
         ("created_by", jOptStr m.created_by)]

/-- A key's serialised value: null when the projection removed the key
from the doc (the view refills it with its Optional default `None`). -/
def projectedVal (excluded : List String) (k : String) (v : JVal) : JVal :=
  if excluded.contains k then .null else v

/-- The pydantic v2 `model_dump` of a view built over `d` after an
exclusion projection: every declared field of `QuestionDocResponse`, in
declaration order. -/
def jsonDump (d : QuestionDoc) (excluded : List String) :
    List (String × JVal) :=
  [("text", projectedVal excluded "text" (.jstr d.text)),
   ("type", projectedVal excluded "type" (.jstr (renderQDocType d.type))),
   ("options", projectedVal excluded "options"
      (.jarr (d.options.map renderOptionDoc))),
   ("answer_key", projectedVal excluded "answer_key" (renderAK d.answer_key)),
   ("solution", projectedVal excluded "solution" (renderSolution d.solution)),
   ("taxonomy", projectedVal excluded "taxonomy" (renderTaxonomy d.taxonomy)),
   ("difficulty", projectedVal excluded "difficulty" (.jnum d.difficulty)),
   ("tags", projectedVal excluded "tags" (.jarr (d.tags.map .jstr))),
   ("language", projectedVal excluded "language" (.jstr d.language)),
   ("usage", projectedVal excluded "usage" (renderUsage d.usage)),
   ("meta", projectedVal excluded "meta" (renderMeta d.meta)),
   ("question_id", projectedVal excluded "question_id" (.jstr d.question_id)),
   ("version", projectedVal excluded "version" (.jnum d.version)),
   ("search_blob", projectedVal excluded "search_blob" (.jstr d.search_blob)),
   ("created_at", projectedVal excluded "created_at" (.jnum d.created_at)),
   ("updated_at", projectedVal excluded "updated_at" (.jnum d.updated_at)),
   ("rand_key", projectedVal excluded "rand_key" (.jnum d.rand_key)),
   ("schema_version", projectedVal excluded "schema_version"
      (.jnum d.schema_version))]

/-- The exclusion keys `get_question` builds from its two flags
(`FULL_PROJECTION` plus conditional `solution`/`answer_key`). -/
def projectionKeys (include_solution include_answer_key : Bool) :
    List String :=
  ["search_blob", "rand_key"]
    ++ (if include_solution then [] else ["solution"])
    ++ (if include_answer_key then [] else ["answer_key"])

/-- `get_question`, composed with the serialisation of its result.  The
view's model validator is skipped when `answer_key` was projected out and
passes on any document `create_question`/`update_question` stored, so it
is not re-modelled here. -/
def getQuestion (qid : String) (include_solution include_answer_key : Bool)
    (repo : List QuestionDoc) : Except HErr (List (String × JVal)) :=
  match repo.find? (fun d => d.id == qid) with
  | none => .error ⟨404, "Question not found"⟩
  | some d =>
    .ok (jsonDump d (projectionKeys include_solution include_answer_key))

/-- **C10.** In `update_question`, patch fields set to null are dropped
by the `exclude_none` dump before merging (the `Option`-valued patch
fields), so a stored non-null field is never cleared to null by an
update; every top-level stored field absent from the patch keeps its
prior value, except `version` (incremented by 1), `updated_at` (set to
now) and `search_blob` (recomputed exactly when text, options, tags or
taxonomy appear in the patch); identity fields are preserved and other
documents are untouched. -/
theorem claim10_update_frame (qid : String) (p : QuestionDocUpdate)
    (now : Int) (repo : List QuestionDoc) (e final : QuestionDoc)
    (repo' : List QuestionDoc)
    (hfind : repo.find? (fun d => d.id == qid) = some e)
    (h : updateQuestion qid p now repo = (.ok final, repo')) :
    (p.text = none → final.text = e.text)
    ∧ (p.type = none → final.type = e.type)
    ∧ (p.options = none → final.options = e.options)
    ∧ (p.answer_key = none → final.answer_key = e.answer_key)
    ∧ (p.solution = none → final.solution = e.solution)
    ∧ (p.taxonomy = none → final.taxonomy = e.taxonomy)
    ∧ (p.difficulty = none → final.difficulty = e.difficulty)
    ∧ (p.tags = none → final.tags = e.tags)
    ∧ (p.language = none → final.language = e.language)
    ∧ (p.usage = none → final.usage = e.usage)
    ∧ (p.meta = none → final.meta = e.meta)
    ∧ final.version = e.version + 1
    ∧ final.updated_at = now
    ∧ final.created_at = e.created_at
    ∧ final.question_id = e.question_id
    ∧ final.id = e.id
    ∧ final.rand_key = e.rand_key
    ∧ final.schema_version = e.schema_version
    ∧ final.search_blob
        = (if p.text.isSome || p.options.isSome || p.tags.isSome
             || p.taxonomy.isSome then
            buildSearchBlob final.text final.options final.tags
              final.taxonomy
          else e.search_blob)
    ∧ (e.solution.isSome → final.solution.isSome)
    ∧ (e.answer_key.option_id.isSome → final.answer_key.option_id.isSome)
    ∧ (e.answer_key.option_ids.isSome → final.answer_key.option_ids.isSome)
    ∧ (e.answer_key.value.isSome → final.answer_key.value.isSome)
    ∧ (e.taxonomy.subject_id.isSome → final.taxonomy.subject_id.isSome)
    ∧ (e.meta.source.isSome → final.meta.source.isSome)
    ∧ (∀ d ∈ repo, (d.id == qid) = false → d ∈ repo') := by
  unfold updateQuestion at h
  rw [hfind] at h
  dsimp only at h
  split at h
  · simp at h
  rename_i opts heq
  split at h
  · simp at h
  rename_i hak
  split at h
  · simp at h
  rename_i htax
  simp only [Prod.mk.injEq, Except.ok.injEq] at h
  obtain ⟨rfl, rfl⟩ := h
  refine ⟨fun hp => ?_, fun hp => ?_, fun hp => ?_, fun hp => ?_,
    fun hp => ?_, fun hp => ?_, fun hp => ?_, fun hp => ?_, fun hp => ?_,
    fun hp => ?_, fun hp => ?_, ?_, ?_, ?_, ?_, ?_, ?_, ?_, ?_,
    fun hs => ?_, fun hs => ?_, fun hs => ?_, fun hs => ?_, fun hs => ?_,
    fun hs => ?_, fun d hd hne => ?_⟩
  · simp [mergeDoc, hp]
  · simp [mergeDoc, hp]
  · have ho : (mergeDoc e p).options = e.options := by simp [mergeDoc, hp]
    rw [ho] at heq
    exact normalizeOptions_ok_eq _ _ _ heq
  · simp [mergeDoc, hp]
  · simp [mergeDoc, hp]
  · simp [mergeDoc, hp]
  · simp [mergeDoc, hp]
  · simp [mergeDoc, hp]
  · simp [mergeDoc, hp]
  · simp [mergeDoc, hp]
  · simp [mergeDoc, hp]
  · rfl
  · rfl
  · rfl
  · rfl
  · rfl
  · rfl
  · rfl
  · rfl
  · cases hps : p.solution with
    | none => simpa [mergeDoc, hps] using hs
    | some sp => simp [mergeDoc, hps, mergeSolution_isSome]
  · cases hpa : p.answer_key with
    | none => simpa [mergeDoc, hpa] using hs
    | some ap =>
      simp only [mergeDoc, hpa, mergeAK]
      exact patchField_isSome _ _ hs
  · cases hpa : p.answer_key with
    | none => simpa [mergeDoc, hpa] using hs
    | some ap =>
      simp only [mergeDoc, hpa, mergeAK]
      exact patchField_isSome _ _ hs
  · cases hpa : p.answer_key with
    | none => simpa [mergeDoc, hpa] using hs
    | some ap =>
      simp only [mergeDoc, hpa, mergeAK]
      exact patchField_isSome _ _ hs
  · cases hpt : p.taxonomy with
    | none => simpa [mergeDoc, hpt] using hs
    | some tp =>
      simp only [mergeDoc, hpt, mergeTaxonomy]
      exact patchField_isSome _ _ hs
  · cases hpm : p.meta with
    | none => simpa [mergeDoc, hpm] using hs
    | some mp =>
      simp only [mergeDoc, hpm, mergeMeta]
      exact patchField_isSome _ _ hs
  · exact List.mem_map.mpr ⟨d, hd, by simp [hne]⟩

/-- A stored v2 document used to exercise `update_question`. -/
def wDoc10 : QuestionDoc :=
  { id := "q_w10"
    question_id := "q_w10"
    text := "What is 2+2?"
    type := .single_choice
    options := [⟨"A", "4"⟩, ⟨"B", "5"⟩]
    answer_key := { type := .single, option_id := some "A" }
    solution := some { explanation := some "add", steps := ["s"] }
    taxonomy := { subject_id := some "math", topic_ids := ["algebra"]
                  target_exam_ids := ["exam_math"] }
    difficulty := 2
    tags := ["arith", "easy"]
    usage := { status := .published }
    version := 1
    search_blob := "blob"
    created_at := 5
    updated_at := 5
    rand_key := 1/2 }

/-- A patch that only sets `difficulty`. -/
def wPatch10 : QuestionDocUpdate := { difficulty := some 3 }

/-- C10 witness: updating only `difficulty` on a concrete document keeps
text, answer key, solution and search blob, bumps version and
updated_at. -/
theorem claim10_witness :
    ∃ final repo',
      updateQuestion "q_w10" wPatch10 99 [wDoc10] = (.ok final, repo')
      ∧ final.text = wDoc10.text
      ∧ final.answer_key = wDoc10.answer_key
      ∧ final.version = wDoc10.version + 1
      ∧ final.updated_at = 99
      ∧ final.search_blob = wDoc10.search_blob
      ∧ final.solution.isSome := by
  obtain ⟨h1, -, -, h4, -, -, -, -, -, -, -, h12, h13, -, -, -, -, -, h19,
      h20, -, -, -, -, -, -⟩ :=
    claim10_update_frame "q_w10" wPatch10 99 [wDoc10] wDoc10 _ _ rfl rfl
  refine ⟨_, _, rfl, h1 rfl, h4 rfl, h12, h13, ?_, h20 rfl⟩
  simpa [wPatch10] using h19

/-- The creation payload of the repo's own projection test
(`test_get_question_projections`), with a solution attached so the full
round-trip is visible. -/
def wQ7 : QuestionDocCreate :=
  { text := "What is 2+2?"
    type := .single_choice
    options := [⟨"A", "4"⟩, ⟨"B", "5"⟩]
    answer_key := { type := .single, option_id := some "A" }
    solution := some { explanation := some "add", steps := ["s"] }
    taxonomy := { subject_id := some "math", topic_ids := ["algebra"]
                  target_exam_ids := ["exam_math"] }
    difficulty := 2
    tags := ["arith", "easy"]
    usage := { status := .published } }

/-- **C7.** Round-trip of question projections.  The full view
(`include_solution=True, include_answer_key=True`) does return every
submitted field.  But the public view (neither flag) does NOT drop
`answer_key`/`solution` from the result's field set: the view classes
declare the exclusions with a pydantic-v1 `ConfigDict(fields=...)` key
that pydantic v2 removed and ignores, so `model_dump` emits every
declared field and the projected-out keys come back as null — the keys
are present with value null, contradicting "the fields are absent, not
null" (and the repo's own test
`test_get_question_projections`). -/
theorem claim7_projection_bug :
    ∃ d repo,
      createQuestion wQ7 "u7" 5 (1/2) [] = (.ok d, repo)
      ∧ getQuestion "q_u7" true true repo
          = .ok (jsonDump d ["search_blob", "rand_key"])
      ∧ (jsonDump d ["search_blob", "rand_key"]).lookup "text"
          = some (.jstr wQ7.text)
      ∧ (jsonDump d ["search_blob", "rand_key"]).lookup "options"
          = some (.jarr (wQ7.options.map renderOptionDoc))
      ∧ (jsonDump d ["search_blob", "rand_key"]).lookup "answer_key"
          = some (renderAK wQ7.answer_key)
      ∧ (jsonDump d ["search_blob", "rand_key"]).lookup "solution"
          = some (renderSolution wQ7.solution)
      ∧ (jsonDump d ["search_blob", "rand_key"]).lookup "taxonomy"
          = some (renderTaxonomy wQ7.taxonomy)
      ∧ (jsonDump d ["search_blob", "rand_key"]).lookup "difficulty"
          = some (.jnum wQ7.difficulty)
      ∧ getQuestion "q_u7" false false repo
          = .ok (jsonDump d
              ["search_blob", "rand_key", "solution", "answer_key"])
      ∧ (jsonDump d
          ["search_blob", "rand_key", "solution", "answer_key"]).lookup
            "answer_key" = some JVal.null
      ∧ (jsonDump d
          ["search_blob", "rand_key", "solution", "answer_key"]).lookup
            "solution" = some JVal.null := by
  exact ⟨_, _, rfl, rfl, rfl, rfl, rfl, rfl, rfl, rfl, rfl, rfl, rfl⟩

/-! ### `app/db/questions_repo.py` — `_normalize_seed` and
`QuestionRepo.sample`

`_normalize_seed` hashes the seed with MD5 and divides the 128-bit
digest integer by `2**128`.  `hashlib.md5` is embedded below as the
RFC 1321 algorithm over UTF-8 bytes (`Nat` words, `% 2^32` where the
machine wraps); the float division becomes the exact rational
`mkRat digest (2^128)`.  The Mongo pieces of `sample` are rendered as in
the rest of this development: the filter document becomes a predicate,
the ascending `rand_key` sort a stable sort, and the `$sample`
aggregation stage (the unseeded branch) an arbitrary rotation of the
matched documents by an `entropy` parameter standing for the stage's
nondeterminism, so that two calls may see different `entropy`. -/

/-- UTF-8 encoding of one code point (`seed.encode("utf-8")`). -/
def utf8Bytes (c : Char) : List Nat :=
  let n := c.toNat
  if n < 128 then [n]
  else if n < 2048 then [192 + n / 64, 128 + n % 64]
  else if n < 65536 then
    [224 + n / 4096, 128 + n / 64 % 64, 128 + n % 64]
  else
    [240 + n / 262144, 128 + n / 4096 % 64, 128 + n / 64 % 64,
     128 + n % 64]

def strBytes (s : String) : List Nat :=
  s.data.foldr (fun c acc => utf8Bytes c ++ acc) []

/-- The MD5 sine table `floor(abs(sin(i+1)) * 2^32)`. -/
def md5K : List Nat :=
  [3614090360, 3905402710, 606105819, 3250441966,
   4118548399, 1200080426, 2821735955, 4249261313,
   1770035416, 2336552879, 4294925233, 2304563134,
   1804603682, 4254626195, 2792965006, 1236535329,
   4129170786, 3225465664, 643717713, 3921069994,
   3593408605, 38016083, 3634488961, 3889429448,
   568446438, 3275163606, 4107603335, 1163531501,
   2850285829, 4243563512, 1735328473, 2368359562,
   4294588738, 2272392833, 1839030562, 4259657740,
   2763975236, 1272893353, 4139469664, 3200236656,
   681279174, 3936430074, 3572445317, 76029189,
   3654602809, 3873151461, 530742520, 3299628645,
   4096336452, 1126891415, 2878612391, 4237533241,
   1700485571, 2399980690, 4293915773, 2240044497,
   1873313359, 4264355552, 2734768916, 1309151649,
   4149444226, 3174756917, 718787259, 3951481745]

/-- The MD5 per-round left-rotation amounts. -/
def md5S : List Nat :=
  [7, 12, 17, 22, 7, 12, 17, 22, 7, 12, 17, 22, 7, 12, 17, 22,
   5, 9, 14, 20, 5, 9, 14, 20, 5, 9, 14, 20, 5, 9, 14, 20,
   4, 11, 16, 23, 4, 11, 16, 23, 4, 11, 16, 23, 4, 11, 16, 23,
   6, 10, 15, 21, 6, 10, 15, 21, 6, 10, 15, 21, 6, 10, 15, 21]

def add32 (a b : Nat) : Nat := (a + b) % 4294967296

def rotl32 (x n : Nat) : Nat :=
  (x * 2 ^ n) % 4294967296 + x / 2 ^ (32 - n)

def not32 (x : Nat) : Nat := 4294967295 - x

def md5F (b c d : Nat) : Nat := (b &&& c) ||| (not32 b &&& d)

def md5G (b c d : Nat) : Nat := (d &&& b) ||| (not32 d &&& c)

def md5H (b c d : Nat) : Nat := b ^^^ c ^^^ d

def md5I (b c d : Nat) : Nat := c ^^^ (b ||| not32 d)

/-- The 64-bit message length, little-endian. -/
def le8 (n : Nat) : List Nat :=
  (List.range 8).map (fun i => n / 256 ^ i % 256)

/-- MD5 padding: `0x80`, zeros to 56 mod 64, then the bit length. -/
def md5Pad (m : List Nat) : List Nat :=
  let z := (120 - (m.length + 1) % 64) % 64
  m ++ [128] ++ List.replicate z 0 ++ le8 ((8 * m.length) % 2 ^ 64)

/-- Four little-endian bytes as one 32-bit word. -/
def leWord (bs : List Nat) : Nat :=
  bs.foldr (fun b acc => acc * 256 + b) 0

/-- A 64-byte block as 16 little-endian words. -/
def words16 (block : List Nat) : List Nat :=
  (List.range 16).map (fun i => leWord ((block.drop (4 * i)).take 4))

/-- One MD5 operation (round `i` of 64). -/
def md5Step (m : List Nat) (st : Nat × Nat × Nat × Nat) (i : Nat) :
    Nat × Nat × Nat × Nat :=
  let (a, b, c, d) := st
  let f :=
    if i < 16 then md5F b c d
    else if i < 32 then md5G b c d
    else if i < 48 then md5H b c d
    else md5I b c d
  let g :=
    if i < 16 then i
    else if i < 32 then (5 * i + 1) % 16
    else if i < 48 then (3 * i + 5) % 16
    else (7 * i) % 16
  let tmp := add32 (add32 (add32 a f) (md5K.getD i 0)) (m.getD g 0)
  (d, add32 b (rotl32 tmp (md5S.getD i 0)), b, c)

/-- One 512-bit block: 64 operations, then add into the running state. -/
def md5Block (st : Nat × Nat × Nat × Nat) (m : List Nat) :
    Nat × Nat × Nat × Nat :=
  let r := (List.range 64).foldl (md5Step m) st
  (add32 st.1 r.1, add32 st.2.1 r.2.1, add32 st.2.2.1 r.2.2.1,
   add32 st.2.2.2 r.2.2.2)

/-- Fold the blocks.  The `fuel` argument makes the recursion structural;
each step consumes 64 bytes, so `fuel = bs.length` (the padded length,
a positive multiple of 64) always suffices. -/
def md5ChunksAux : Nat → Nat × Nat × Nat × Nat → List Nat →
    Nat × Nat × Nat × Nat
  | 0, st, _ => st
  | _ + 1, st, [] => st
  | fuel + 1, st, b :: bs =>
    md5ChunksAux fuel (md5Block st (words16 ((b :: bs).take 64)))
      ((b :: bs).drop 64)

def md5Init : Nat × Nat × Nat × Nat :=
  (1732584193, 4023233417, 2562383102, 271733878)

/-- Four little-endian bytes of a 32-bit word. -/
def le4 (n : Nat) : List Nat :=
  [n % 256, n / 256 % 256, n / 65536 % 256, n / 16777216 % 256]

/-- The 16 digest bytes of `hashlib.md5(bytes).digest()`. -/
def md5Digest (s : String) : List Nat :=
  let padded := md5Pad (strBytes s)
  let st := md5ChunksAux padded.length md5Init padded
  le4 st.1 ++ le4 st.2.1 ++ le4 st.2.2.1 ++ le4 st.2.2.2

/-- `int(hashlib.md5(seed.encode("utf-8")).hexdigest(), 16)`: the hex
digest read as a base-16 integer is the digest bytes big-endian. -/
def md5HexInt (s : String) : Nat :=
  (md5Digest s).foldl (fun acc b => acc * 256 + b) 0

/-- `_normalize_seed`: the digest integer divided by `2**128`, as an
exact rational. -/
def normalizeSeed (s : String) : Rat :=
  mkRat (md5HexInt s) (2 ^ 128)

/-- A question document as seen by `sample`: its identity and its
`rand_key` ranking field. -/
structure SampleDoc where
  id : String
  rand_key : Rat
deriving DecidableEq, Repr

/-- Mongo `sort([("rand_key", ASCENDING)])`. -/
def sortByRandKey (l : List SampleDoc) : List SampleDoc :=
  sortByBool (fun a b => decide (a.rand_key ≤ b.rand_key)) l

/-- `QuestionRepo.sample`.  `if seed:` is Python truthiness (`None` and
`""` are falsy).  The seeded branch queries
`{**filters, rand_key: {"$gte": p}}` sorted ascending with `limit`, and
wraps with the `"$lt"` query for the remainder; the unseeded branch is
the `$sample` aggregation, whose nondeterminism is the `entropy`
rotation. -/
def repoSample (flt : SampleDoc → Bool) (limit : Nat)
    (seed : Option String) (entropy : Nat) (docs : List SampleDoc) :
    List SampleDoc :=
  if strTruthy seed then
    let p := normalizeSeed (seed.getD "")
    let matched := docs.filter flt
    let first :=
      (sortByRandKey (matched.filter
        (fun d => decide (p ≤ d.rand_key)))).take limit
    let remaining := limit - first.length
    if remaining = 0 then first
    else
      first ++ (sortByRandKey (matched.filter
        (fun d => decide (d.rand_key < p)))).take remaining
  else
    (rotateBy entropy (docs.filter flt)).take limit

/-- The spec's own wording of seeded sampling: "take the first `limit`
documents with random_key ≥ p in ascending key order; if fewer than
`limit` are found, wrap around and take the remaining count from
documents with random_key < p, also ascending". -/
def specSample (p : Rat) (limit : Nat) (matched : List SampleDoc) :
    List SampleDoc :=
  let first :=
    (sortByRandKey (matched.filter
      (fun d => decide (p ≤ d.rand_key)))).take limit
  first ++ (sortByRandKey (matched.filter
    (fun d => decide (d.rand_key < p)))).take (limit - first.length)

theorem foldlBytes_lt (l : List Nat) (a : Nat) (h : ∀ b ∈ l, b < 256) :
    l.foldl (fun acc b => acc * 256 + b) a < (a + 1) * 256 ^ l.length := by
  induction l generalizing a with
  | nil => simp [Nat.lt_succ_self]
  | cons b t ih =>
    simp only [List.foldl_cons, List.length_cons]
    have hb : b < 256 := h b (by simp)
    have ht : ∀ x ∈ t, x < 256 := fun x hx => h x (by simp [hx])
    calc t.foldl (fun acc b => acc * 256 + b) (a * 256 + b)
        < (a * 256 + b + 1) * 256 ^ t.length := ih (a * 256 + b) ht
      _ ≤ ((a + 1) * 256) * 256 ^ t.length :=
          Nat.mul_le_mul_right _ (by omega)
      _ = (a + 1) * 256 ^ (t.length + 1) := by ring

theorem le4_lt (n : Nat) : ∀ b ∈ le4 n, b < 256 := by
  intro b hb
  simp only [le4, List.mem_cons, List.not_mem_nil, or_false] at hb
  rcases hb with rfl | rfl | rfl | rfl <;> exact Nat.mod_lt _ (by norm_num)

theorem md5Digest_length (s : String) : (md5Digest s).length = 16 := by
  simp [md5Digest, le4]

theorem md5Digest_bytes_lt (s : String) :
    ∀ b ∈ md5Digest s, b < 256 := by
  intro b hb
  simp only [md5Digest, List.mem_append] at hb
  rcases hb with ((hb | hb) | hb) | hb <;> exact le4_lt _ _ hb

/-- The digest integer fits in 128 bits. -/
theorem md5HexInt_lt (s : String) : md5HexInt s < 2 ^ 128 :=
  calc md5HexInt s
      < (0 + 1) * 256 ^ (md5Digest s).length :=
        foldlBytes_lt _ 0 (md5Digest_bytes_lt s)
    _ = 2 ^ 128 := by rw [md5Digest_length]; norm_num

theorem normalizeSeed_nonneg (s : String) : 0 ≤ normalizeSeed s := by
  unfold normalizeSeed
  rw [Rat.mkRat_eq_div]
  positivity

theorem normalizeSeed_lt_one (s : String) : normalizeSeed s < 1 := by
  unfold normalizeSeed
  rw [Rat.mkRat_eq_div, div_lt_one (by positivity)]
  exact_mod_cast md5HexInt_lt s

theorem ite_append_take (first rest : List SampleDoc) (limit : Nat) :
    (if limit - first.length = 0 then first
     else first ++ rest.take (limit - first.length))
      = first ++ rest.take (limit - first.length) := by
  split
  · next h0 => rw [h0]; simp
  · rfl

/-- **C5.** Corrected: for every NON-EMPTY seed string, sampling is
deterministic — the result does not depend on the `$sample` entropy, and
equals the spec's description: first the documents with
`rand_key ≥ p` ascending (up to `limit`), wrapping around to those with
`rand_key < p`, where `p = normalize_seed(seed) ∈ [0,1)`.  The original
claim's "for every seed string" fails at `seed = ""`: `if seed:` is
falsy on the empty string, so it falls into the nondeterministic
`$sample` branch (see the counterexample). -/
theorem claim5_seeded_sampling (flt : SampleDoc → Bool) (limit : Nat)
    (s : String) (hs : s ≠ "") (e1 e2 : Nat) (docs : List SampleDoc) :
    repoSample flt limit (some s) e1 docs
      = repoSample flt limit (some s) e2 docs
    ∧ repoSample flt limit (some s) e1 docs
        = specSample (normalizeSeed s) limit (docs.filter flt)
    ∧ 0 ≤ normalizeSeed s ∧ normalizeSeed s < 1 := by
  have ht : strTruthy (some s) = true := by simp [strTruthy, hs]
  refine ⟨?_, ?_, normalizeSeed_nonneg s, normalizeSeed_lt_one s⟩
  · simp [repoSample, ht]
  · simp only [repoSample, specSample, ht, if_true, Option.getD_some]
    exact ite_append_take _ _ _

/-- Two documents with distinct ranking keys. -/
def cxDocs5 : List SampleDoc :=
  [⟨"a", mkRat 1 4⟩, ⟨"b", mkRat 3 4⟩]

/-- C5 counterexample: with the empty-string seed, `if seed:` is falsy
and `sample` falls back to the `$sample` aggregation, which is not a
function of the data alone — two runs can return different orders. -/
theorem claim5_counterexample :
    repoSample (fun _ => true) 2 (some "") 0 cxDocs5
      ≠ repoSample (fun _ => true) 2 (some "") 1 cxDocs5 := by decide

/-- C5 witness: the theorem at seed `"seed123"`, two entropies and
concrete documents. -/
theorem claim5_witness :
    ("seed123" ≠ "")
    ∧ (repoSample (fun _ => true) 2 (some "seed123") 0 cxDocs5
         = repoSample (fun _ => true) 2 (some "seed123") 7 cxDocs5
       ∧ repoSample (fun _ => true) 2 (some "seed123") 0 cxDocs5
           = specSample (normalizeSeed "seed123") 2
               (cxDocs5.filter (fun _ => true))
       ∧ 0 ≤ normalizeSeed "seed123" ∧ normalizeSeed "seed123" < 1) :=
  ⟨by decide,
   claim5_seeded_sampling (fun _ => true) 2 "seed123" (by decide) 0 7
     cxDocs5⟩

end MtxMaster
